import Mathlib

/-!
Shallow embedding of `src/unwrap.py` (SNAPHU driver utilities): the
configuration-file generator `write_snaphu_config` and the raster/binary
converters `gdal_to_binary` and `binary_to_gdal`, together with theorems
checking the specification's claims about them.
-/

namespace Snafu

/-! ## Templates (source lines 7–80)

A Python template string is embedded as an alternating list of literal
segments and `\x7bname\x7d` placeholders; the literal segments below are the
exact text of the source's template strings. -/

inductive TItem where
  | lit : String → TItem
  | ph : String → TItem
deriving DecidableEq

def base_template : List TItem :=
  [.lit "\n    ######################\n    # Base Configuration #\n    ######################\n\n    # Input file name\n    INFILE  ",
   .ph "infile",
   .lit "\n    INFILEFORMAT    ",
   .ph "informat",
   .lit "\n\n    # Input file line length\n    LINELENGTH  ",
   .ph "width",
   .lit "\n    NLOOKSRANGE ",
   .ph "looks_range",
   .lit "\n    NLOOKSAZ    ",
   .ph "looks_az",
   .lit "\n\n    # Output file\n    OUTFILE ",
   .ph "outfile",
   .lit "\n    OUTFILEFORMAT   ",
   .ph "outformat",
   .lit "\n\n    # Correlation file\n    CORRFILE    ",
   .ph "corfile",
   .lit "\n    CORRFILEFORMAT  FLOAT_DATA\n\n    # Unwrapping Controls\n    STATCOSTMODE    DEFO\n    DEFOMAX_CYCLE   4.0\n    INITMETHOD  MCF\n    MAXNCOMPS   32\n\n    "]

def tile_template : List TItem :=
  [.lit "\n    ################\n    # Tile control #\n    ################\n\n    # Parameters in this section describe how the input files will be\n    # tiled.  This is mainly used for tiling, in which different\n    # patches of the interferogram are unwrapped separately.\n\n    # Number of rows and columns of tiles into which the data files are\n    # to be broken up.\n    NTILEROW    ",
   .ph "ntilerow",
   .lit "\n    NTILECOL    ",
   .ph "ntilecol",
   .lit "\n\n    # Overlap, in pixels, between neighboring tiles.\n    # Using the same overlap for rows and cols here, but they can be different in general\n    ROWOVRLP    ",
   .ph "overlap",
   .lit "\n    COLOVRLP    ",
   .ph "overlap",
   .lit "\n\n    # Maximum number of child processes to start for parallel tile\n    # unwrapping.\n    NPROC   ",
   .ph "nproc",
   .lit "\n\n    "]

def mask_template : List TItem :=
  [.lit "\n    ###########\n    # Masking #\n    ###########\n\n    # Input file of signed binary byte (signed char) values.  Values in\n    # the file should be either 0 or 1, with 0 denoting interferogram\n    # pixels that should be masked out and 1 denoting valid pixels.  The\n    # array should have the same dimensions as the input wrapped phase\n    # array.\n    BYTEMASKFILE    ",
   .ph "mask",
   .lit "\n\n    "]

def unwrap_template : List TItem :=
  [.lit "\n    UNWRAPPED_IN    TRUE\n    UNWRAPPEDINFILEFORMAT   FLOAT_DATA\n\n    "]

/-- `template.format(**options)` (source line 128): replace each placeholder by
its value from the option mapping; a missing key is a `KeyError`, modeled as
`none`. -/
def substItems (options : List (String × String)) : List TItem → Option String
  | [] => some ""
  | .lit s :: rest => (substItems options rest).map (fun t => s ++ t)
  | .ph n :: rest =>
    match (options.lookup n : Option String) with
    | none => none
    | some v => (substItems options rest).map (fun t => v ++ t)

/-- Python truthiness of the `in_mask` argument (`None` and `''` are falsy). -/
def truthyMask : Option String → Bool
  | none => false
  | some m => m ≠ ""

/-- Python truthiness of the `tile_shape` argument (`None` and `()` are
falsy). -/
def truthyTile : Option (List Int) → Bool
  | none => false
  | some l => l ≠ []

/-- `write_snaphu_config` (source lines 83–133).  String arguments stay
strings; the integer arguments (`looks_az`, `looks_range`, the components of
`shape`, `tile_shape`, `tile_overlap`) are rendered in decimal at `format`
time exactly as Python `str` does, so the model stringifies them with
`Int.repr`/`Nat.repr`.  The result is `some (config text, out_conf, out_file)`;
`none` models an uncaught exception (tile-shape unpacking failure or a
`KeyError` during formatting).  The text is what the function writes to
`out_conf` before returning `(out_conf, out_file)`. -/
def write_snaphu_config (in_ifg in_cor : String) (looks_az looks_range : Int)
    (shape : Nat × Nat) (out_conf out_file : String)
    (tile_shape : Option (List Int)) (tile_overlap : Int)
    (in_mask : Option String) (unwrapped : Bool) :
    Option (String × String × String) :=
  let in_format := "FLOAT_DATA"
  let options0 : List (String × String) :=
    [("infile", in_ifg), ("informat", in_format), ("corfile", in_cor),
     ("looks_az", Int.repr looks_az), ("looks_range", Int.repr looks_range),
     ("width", Nat.repr shape.2), ("outfile", out_file),
     ("outformat", "FLOAT_DATA")]
  let tstep : Option (List TItem × List (String × String)) :=
    if truthyTile tile_shape then
      match tile_shape with
      | some [ntilerow, ntilecol] =>
        some (base_template ++ tile_template,
              options0 ++
                [("ntilerow", Int.repr ntilerow), ("ntilecol", Int.repr ntilecol),
                 ("overlap", Int.repr tile_overlap),
                 ("nproc", Int.repr (ntilerow * ntilecol))])
      | _ => none
    else
      some (base_template, options0)
  match tstep with
  | none => none
  | some (template1, options1) =>
    let step2 : List TItem × List (String × String) :=
      if truthyMask in_mask then
        (template1 ++ mask_template, options1 ++ [("mask", in_mask.getD "")])
      else (template1, options1)
    let template3 := if unwrapped then step2.1 ++ unwrap_template else step2.1
    match substItems step2.2 template3 with
    | none => none
    | some text => some (text, out_conf, out_file)

/-- `substItems` distributes over template concatenation. -/
theorem substItems_append (options : List (String × String)) (l1 l2 : List TItem) :
    substItems options (l1 ++ l2)
      = match substItems options l1, substItems options l2 with
        | some a, some b => some (a ++ b)
        | _, _ => none := by
  induction l1 with
  | nil =>
    cases h : substItems options l2 <;> simp [substItems, h]
  | cons item l1 ih =>
    cases item with
    | lit s =>
      simp only [List.cons_append, substItems]
      cases h1 : substItems options l1 <;> cases h2 : substItems options l2 <;>
        simp [ih, h1, h2, String.append_assoc]
    | ph n =>
      simp only [List.cons_append, substItems]
      cases hl : List.lookup n options
      · simp
      · cases h1 : substItems options l1 <;> cases h2 : substItems options l2 <;>
          simp [ih, h1, h2, String.append_assoc]

/-! ## Observing the produced config text

The claims speak about the *directives* of the generated file: ignoring
blank lines and `#`-comment lines, each remaining line carries a keyword
followed by a value.  `configDirectives` extracts that view from the text. -/

/-- Space or tab. -/
def isWsp (c : Char) : Bool := c = ' ' || c = '\t'

/-- Split a character list at newline characters. -/
def splitLn : List Char → List (List Char)
  | [] => [[]]
  | c :: rest =>
    if c = '\n' then [] :: splitLn rest
    else match splitLn rest with
      | [] => [[c]]
      | a :: as => (c :: a) :: as

/-- Directive of a single line: `none` for blank and `#`-comment lines,
otherwise the first whitespace-delimited word and the rest of the line with
surrounding whitespace stripped. -/
def directiveOfLine (l : List Char) : Option (String × String) :=
  match l.dropWhile isWsp with
  | [] => none
  | c :: t =>
    if c = '#' then none
    else
      let kw := (c :: t).takeWhile (fun c => !isWsp c)
      let rest := ((c :: t).dropWhile (fun c => !isWsp c)).dropWhile isWsp
      let value := (rest.reverse.dropWhile isWsp).reverse
      some (String.mk kw, String.mk value)

/-- The keyword/value directives of a config text. -/
def configDirectives (s : String) : List (String × String) :=
  (splitLn s.data).filterMap directiveOfLine

/-- A string that stays a single token of a single config line: it contains
no newline, space, or tab.  File paths and the decimal renderings of the
numeric options satisfy this. -/
def cleanStr (s : String) : Prop :=
  ∀ c ∈ s.data, isWsp c = false ∧ c ≠ '\n'

instance (s : String) : Decidable (cleanStr s) := by
  unfold cleanStr; infer_instance

/-! ### Lemmas on `splitLn` -/

theorem splitLn_ne_nil (l : List Char) : splitLn l ≠ [] := by
  induction l with
  | nil => simp [splitLn]
  | cons c rest ih =>
    simp only [splitLn]
    split
    · simp
    · split <;> simp

theorem splitLn_newline (l : List Char) : splitLn ('\n' :: l) = [] :: splitLn l := by
  simp [splitLn]

theorem splitLn_cons_ne (c : Char) (l : List Char) (h : c ≠ '\n') :
    splitLn (c :: l) = (c :: (splitLn l).headD []) :: (splitLn l).tail := by
  simp only [splitLn, if_neg h]
  rcases h' : splitLn l with _ | ⟨a, as⟩
  · exact absurd h' (splitLn_ne_nil l)
  · simp

theorem splitLn_clean_append (v l : List Char) (h : ∀ c ∈ v, c ≠ '\n') :
    splitLn (v ++ l) = (v ++ (splitLn l).headD []) :: (splitLn l).tail := by
  induction v with
  | nil =>
    rcases h' : splitLn l with _ | ⟨a, as⟩
    · exact absurd h' (splitLn_ne_nil l)
    · simp [h']
  | cons c v ih =>
    have hc : c ≠ '\n' := h c (by simp)
    have ih' := ih (fun c hc => h c (by simp [hc]))
    simp only [List.cons_append, splitLn_cons_ne c _ hc, ih']
    simp

theorem splitLn_clean (v : List Char) (h : ∀ c ∈ v, c ≠ '\n') :
    splitLn v = [v] := by
  have := splitLn_clean_append v [] h
  simpa [splitLn] using this

/-! ### Lemmas on `takeWhile`/`dropWhile` over concatenations -/

theorem dropWhile_append_all {p : Char → Bool} (a l : List Char) (h : ∀ c ∈ a, p c = true) :
    List.dropWhile p (a ++ l) = List.dropWhile p l := by
  induction a with
  | nil => simp
  | cons c a ih =>
    simp only [List.cons_append, List.dropWhile_cons, h c (by simp)]
    exact ih (fun c hc => h c (by simp [hc]))

theorem takeWhile_append_all {p : Char → Bool} (a l : List Char) (h : ∀ c ∈ a, p c = true) :
    List.takeWhile p (a ++ l) = a ++ List.takeWhile p l := by
  induction a with
  | nil => simp
  | cons c a ih =>
    simp only [List.cons_append, List.takeWhile_cons, h c (by simp)]
    simp [ih (fun c hc => h c (by simp [hc]))]

theorem dropWhile_all_neg {p : Char → Bool} (l : List Char) (h : ∀ c ∈ l, p c = false) :
    List.dropWhile p l = l := by
  cases l with
  | nil => simp
  | cons c t => simp [List.dropWhile_cons, h c (by simp)]

/-- A line of the form `indent ++ keyword ++ separator ++ value` with a
non-comment keyword and a whitespace-free value parses to that keyword and
value. -/
theorem directiveOfLine_line (ind : List Char) (k : Char) (kw sp v : List Char)
    (hind : ∀ c ∈ ind, isWsp c = true)
    (hk : isWsp k = false) (hk2 : k ≠ '#')
    (hkw : ∀ c ∈ kw, isWsp c = false)
    (hsp : ∀ c ∈ sp, isWsp c = true) (hsp1 : sp ≠ [])
    (hv : ∀ c ∈ v, isWsp c = false) :
    directiveOfLine (ind ++ (k :: kw) ++ sp ++ v) = some (String.mk (k :: kw), String.mk v) := by
  obtain ⟨s, sp', rfl⟩ : ∃ s sp', sp = s :: sp' := by
    cases sp with
    | nil => exact absurd rfl hsp1
    | cons s sp' => exact ⟨s, sp', rfl⟩
  have hs : isWsp s = true := hsp s (by simp)
  have hsp' : ∀ c ∈ sp', isWsp c = true := fun c hc => hsp c (by simp [hc])
  have hvr : ∀ c ∈ v.reverse, isWsp c = false := fun c hc => hv c (List.mem_reverse.1 hc)
  have e0 : ind ++ (k :: kw) ++ (s :: sp') ++ v = ind ++ (k :: (kw ++ (s :: (sp' ++ v)))) := by
    simp
  have h1 : List.dropWhile isWsp (ind ++ (k :: kw) ++ (s :: sp') ++ v)
      = k :: (kw ++ (s :: (sp' ++ v))) := by
    rw [e0, dropWhile_append_all ind _ hind, List.dropWhile_cons, hk]
    simp
  have hkw2 : ∀ c ∈ kw, (!isWsp c) = true := by intro c hc; simp [hkw c hc]
  have h2 : List.takeWhile (fun c => !isWsp c) (k :: (kw ++ (s :: (sp' ++ v)))) = k :: kw := by
    rw [List.takeWhile_cons]
    simp only [hk, Bool.not_false, if_true]
    rw [takeWhile_append_all kw _ hkw2, List.takeWhile_cons]
    simp [hs]
  have h3 : List.dropWhile (fun c => !isWsp c) (k :: (kw ++ (s :: (sp' ++ v))))
      = s :: (sp' ++ v) := by
    rw [List.dropWhile_cons]
    simp only [hk, Bool.not_false, if_true]
    rw [dropWhile_append_all kw _ hkw2, List.dropWhile_cons]
    simp [hs]
  have h4 : List.dropWhile isWsp (s :: (sp' ++ v)) = v := by
    rw [List.dropWhile_cons, hs]
    simp only [if_true]
    rw [dropWhile_append_all sp' _ hsp', dropWhile_all_neg v hv]
  have h5 : (List.dropWhile isWsp v.reverse).reverse = v := by
    rw [dropWhile_all_neg _ hvr, List.reverse_reverse]
  unfold directiveOfLine
  rw [e0]
  rw [show ind ++ (k :: (kw ++ (s :: (sp' ++ v))))
      = ind ++ (k :: kw) ++ (s :: sp') ++ v by simp] at *
  rw [h1]
  simp only [if_neg hk2, h2, h3, h4, h5]

/-! ### Decimal renderings contain only digit characters -/

def digitChars : List Char := ['0', '1', '2', '3', '4', '5', '6', '7', '8', '9']

theorem digitChar_mem (d : Nat) (h : d < 10) : Nat.digitChar d ∈ digitChars := by
  interval_cases d <;> decide

theorem toDigitsCore_subset (f : Nat) :
    ∀ (n : Nat) (acc : List Char), ∀ c ∈ Nat.toDigitsCore 10 f n acc,
      c ∈ acc ∨ c ∈ digitChars := by
  induction f with
  | zero => intro n acc c hc; exact Or.inl hc
  | succ f ih =>
    intro n acc c hc
    simp only [Nat.toDigitsCore] at hc
    by_cases h0 : n / 10 = 0
    · rw [if_pos h0] at hc
      rcases List.mem_cons.1 hc with h | h
      · exact Or.inr (h ▸ digitChar_mem _ (Nat.mod_lt _ (by norm_num)))
      · exact Or.inl h
    · rw [if_neg h0] at hc
      rcases ih _ _ c hc with h | h
      · rcases List.mem_cons.1 h with h | h
        · exact Or.inr (h ▸ digitChar_mem _ (Nat.mod_lt _ (by norm_num)))
        · exact Or.inl h
      · exact Or.inr h

theorem natRepr_digits (n : Nat) : ∀ c ∈ (Nat.repr n).data, c ∈ digitChars := by
  intro c hc
  have : c ∈ Nat.toDigitsCore 10 (n + 1) n [] := hc
  rcases toDigitsCore_subset (n + 1) n [] c this with h | h
  · exact absurd h (List.not_mem_nil c)
  · exact h

theorem digitChars_clean : ∀ c ∈ '-' :: digitChars, isWsp c = false ∧ c ≠ '\n' := by
  decide

theorem natRepr_clean (n : Nat) : cleanStr (Nat.repr n) := by
  intro c hc
  exact digitChars_clean c (List.mem_cons_of_mem _ (natRepr_digits n c hc))

theorem intRepr_clean (i : Int) : cleanStr (Int.repr i) := by
  cases i with
  | ofNat m => exact natRepr_clean m
  | negSucc m =>
    intro c hc
    simp only [Int.repr, String.data_append] at hc
    rcases List.mem_append.1 hc with h | h
    · rcases List.mem_cons.1 h with h | h
      · exact digitChars_clean c (h ▸ List.mem_cons_self _ _)
      · exact absurd h (List.not_mem_nil c)
    · exact natRepr_clean _ c h

/-! ## Raster data model and converters (source lines 136–183)

A GDAL dataset is embedded as an in-memory record; `gdal.Open` hands the
function the record itself.  Pixel values are a type parameter `V`: the two
converters move values without arithmetic (float32 and byte payloads pass
through the flat file bit-for-bit), so the claims about them hold for the
values of any pixel domain; the one arithmetic step, `np.angle` on complex
input, is the explicit `angle` argument and is instantiated with `Complex.arg`
for the complex-typed claims. -/

inductive GDType where
  | GDT_Byte | GDT_UInt16 | GDT_Int16 | GDT_UInt32 | GDT_Int32
  | GDT_Float32 | GDT_Float64 | GDT_CInt16 | GDT_CInt32 | GDT_CFloat32 | GDT_CFloat64
deriving DecidableEq

/-- The numpy element types the converters write (`np.float32` / `np.byte`). -/
inductive NpDtype where
  | float32 | byte
deriving DecidableEq

structure Raster (V : Type) where
  RasterXSize : Nat
  RasterYSize : Nat
  DataType : GDType
  NoDataValue : Option V
  GeoTransform : List ℚ
  Projection : String
  band1 : List V

/-- The `dtype → py_dtype` dispatch of `gdal_to_binary` (source lines 137–144);
`none` is the `NotImplementedError` branch. -/
def py_dtype_of : GDType → Option NpDtype
  | .GDT_Float32 => some .float32
  | .GDT_Byte => some .byte
  | .GDT_CFloat32 => some .float32
  | _ => none

/-- `gdal_to_binary` (source lines 136–153).  On success the result is the
element sequence written to the flat binary output file (row-major, no
header); `Except.error` models the `NotImplementedError` raised before any
file is touched. -/
def gdal_to_binary {V : Type} (angle : V → V) (ds : Raster V) (dtype : GDType) :
    Except Unit (List V) :=
  match py_dtype_of dtype with
  | none => .error ()
  | some _py_dtype =>
    let arr := ds.band1
    let arr := if dtype = .GDT_CFloat32 then arr.map angle else arr
    .ok arr

/-- A flat store of named binary files, used to express that the failing
path of `gdal_to_binary` creates no output file. -/
def gdal_to_binary_run {V : Type} (angle : V → V) (fs : List (String × List V))
    (ds : Raster V) (outpath : String) (dtype : GDType) :
    Except Unit (List (String × List V)) :=
  match gdal_to_binary angle ds dtype with
  | .error e => .error e
  | .ok bin => .ok ((outpath, bin) :: fs)

/-- The `dtype → py_dtype` dispatch of `binary_to_gdal` (source lines
162–167): only float32 and byte templates are supported. -/
def py_dtype_of_template : GDType → Option NpDtype
  | .GDT_Float32 => some .float32
  | .GDT_Byte => some .byte
  | _ => none

/-- `binary_to_gdal` (source lines 156–183).  `bin` is the flat binary input
file's element sequence, `template` the raster opened at `templatepath`,
`maskDs` the raster opened at `maskpath`.  Failures modeled as errors: the
`NotImplementedError` for an unsupported template pixel type; the `reshape`
failure when the file length differs from height × width; numpy's rejection
of a `None` fill value in `arr[mask == 0] = nodata_value` (it converts the
fill value to the array dtype before selecting, so an absent nodata value
fails regardless of the mask); and the boolean-index shape mismatch.  On
success the result is the raster written to `outpath`. -/
def binary_to_gdal {V : Type} [DecidableEq V] [Zero V]
    (bin : List V) (template maskDs : Raster V) : Except Unit (Raster V) :=
  match py_dtype_of_template template.DataType with
  | none => .error ()
  | some _py_dtype =>
    if bin.length = template.RasterYSize * template.RasterXSize then
      match template.NoDataValue with
      | none => .error ()
      | some nd =>
        if maskDs.band1.length = template.RasterYSize * template.RasterXSize then
          .ok { RasterXSize := template.RasterXSize
                RasterYSize := template.RasterYSize
                DataType := template.DataType
                NoDataValue := some nd
                GeoTransform := template.GeoTransform
                Projection := template.Projection
                band1 := List.zipWith (fun v m => if m = 0 then nd else v) bin maskDs.band1 }
        else .error ()
    else .error ()

/-- Writing an array as a single-band raster (the raster-write step of the
spec's round-trip property): constructs the dataset record the converters
read back. -/
def writeRaster {V : Type} (h w : Nat) (dtype : GDType) (nodata : Option V)
    (gt : List ℚ) (proj : String) (arr : List V) : Raster V :=
  { RasterXSize := w, RasterYSize := h, DataType := dtype, NoDataValue := nodata,
    GeoTransform := gt, Projection := proj, band1 := arr }

/-- `np.angle` on a complex value (source line 150), idealized over ℂ:
the argument in radians. -/
noncomputable def np_angle (z : ℂ) : ℝ := Complex.arg z

/-- `np.angle` followed by the float32 store, kept in ℂ so it can be the
`angle` step of `gdal_to_binary` at pixel domain ℂ. -/
noncomputable def np_angle_c (z : ℂ) : ℂ := ((np_angle z : ℝ) : ℂ)

theorem zipWith_getElem? {α β γ : Type} (f : α → β → γ) (l1 : List α) (l2 : List β)
    (i : Nat) :
    (List.zipWith f l1 l2)[i]? =
      match l1[i]?, l2[i]? with
      | some a, some b => some (f a b)
      | _, _ => none := by
  induction l1 generalizing l2 i with
  | nil => simp
  | cons a l1 ih =>
    cases l2 with
    | nil => simp
    | cons b l2 =>
      cases i with
      | zero => simp
      | succ i => simpa using ih l2 i

theorem zipWith_mask_id {V : Type} [DecidableEq V] [Zero V] (nd : V)
    (arr mask : List V) (hlen : mask.length = arr.length)
    (hnz : ∀ m ∈ mask, m ≠ 0) :
    List.zipWith (fun v m => if m = 0 then nd else v) arr mask = arr := by
  induction arr generalizing mask with
  | nil => simp
  | cons a arr ih =>
    cases mask with
    | nil => simp at hlen
    | cons m mask =>
      have hm : m ≠ 0 := hnz m (by simp)
      simp only [List.zipWith_cons_cons, if_neg hm]
      rw [ih mask (by simpa using hlen) (fun m hm' => hnz m (by simp [hm']))]

/-! ## Claims C1, C2, C3, C9, C8: the converters -/

/-- C1: for a template raster of 32-bit float or 8-bit byte pixel type (with
its nodata value defined, as the conversion reads it), `binary_to_gdal`
succeeds and produces an output band in which every pixel whose mask value is
0 holds the template's nodata value and every pixel with nonzero mask value
holds the value decoded from the flat binary file at that position. -/
theorem C1_binary_to_gdal_mask_semantics {V : Type} [DecidableEq V] [Zero V]
    (bin : List V) (template maskDs : Raster V) (nd : V)
    (hdt : template.DataType = .GDT_Float32 ∨ template.DataType = .GDT_Byte)
    (hnd : template.NoDataValue = some nd)
    (hbin : bin.length = template.RasterYSize * template.RasterXSize)
    (hmask : maskDs.band1.length = template.RasterYSize * template.RasterXSize) :
    ∃ out, binary_to_gdal bin template maskDs = .ok out ∧
      ∀ (i : Nat) (m v : V), maskDs.band1[i]? = some m → bin[i]? = some v →
        out.band1[i]? = some (if m = 0 then nd else v) := by
  obtain ⟨pd, hpd⟩ : ∃ pd, py_dtype_of_template template.DataType = some pd := by
    rcases hdt with h | h <;> rw [h] <;> exact ⟨_, rfl⟩
  have hok : binary_to_gdal bin template maskDs = .ok
      { RasterXSize := template.RasterXSize, RasterYSize := template.RasterYSize,
        DataType := template.DataType, NoDataValue := some nd,
        GeoTransform := template.GeoTransform, Projection := template.Projection,
        band1 := List.zipWith (fun v m => if m = 0 then nd else v) bin maskDs.band1 } := by
    unfold binary_to_gdal
    rw [hpd, hnd]
    simp only [if_pos hbin, if_pos hmask]
  refine ⟨_, hok, ?_⟩
  intro i m v hm hv
  simp only [zipWith_getElem? _ bin maskDs.band1 i, hv, hm]

/-- C1 witness: a concrete float32 template with nodata 7, mask `[0, 3]`,
binary file `[10, 20]`: the output holds `[7, 20]`. -/
theorem C1_binary_to_gdal_mask_semantics_witness :
    ∃ out, binary_to_gdal (V := Int) [10, 20]
        (writeRaster 1 2 .GDT_Float32 (some 7) [] "EPSG:4326" [1, 2])
        (writeRaster 1 2 .GDT_Byte (some 0) [] "EPSG:4326" [0, 3]) = .ok out ∧
      out.band1[0]? = some 7 ∧ out.band1[1]? = some 20 := by
  obtain ⟨out, hok, hpix⟩ := C1_binary_to_gdal_mask_semantics (V := Int) [10, 20]
    (writeRaster 1 2 .GDT_Float32 (some 7) [] "EPSG:4326" [1, 2])
    (writeRaster 1 2 .GDT_Byte (some 0) [] "EPSG:4326" [0, 3]) 7
    (Or.inl rfl) rfl (by decide) (by decide)
  refine ⟨out, hok, ?_, ?_⟩
  · have := hpix 0 0 10 (by decide) (by decide)
    simpa using this
  · have := hpix 1 3 20 (by decide) (by decide)
    simpa using this

/-- C2: writing a 32-bit float or 8-bit byte array as a raster, converting it
to flat binary with `gdal_to_binary`, and converting back with
`binary_to_gdal` using the written raster as its own template (nodata set)
and an all-nonzero mask reproduces the array element-for-element. -/
theorem C2_round_trip {V : Type} [DecidableEq V] [Zero V] (angle : V → V)
    (h w : Nat) (dtype : GDType) (nd : V) (gt : List ℚ) (proj : String)
    (arr : List V) (maskDs : Raster V)
    (hdt : dtype = .GDT_Float32 ∨ dtype = .GDT_Byte)
    (harr : arr.length = h * w)
    (hmask : maskDs.band1.length = h * w)
    (hnz : ∀ m ∈ maskDs.band1, m ≠ 0) :
    gdal_to_binary angle (writeRaster h w dtype (some nd) gt proj arr) dtype = .ok arr ∧
    ∃ out, binary_to_gdal arr (writeRaster h w dtype (some nd) gt proj arr) maskDs
        = .ok out ∧ out.band1 = arr := by
  have hnc : dtype ≠ .GDT_CFloat32 := by rcases hdt with h | h <;> simp [h]
  obtain ⟨pd, hpd⟩ : ∃ pd, py_dtype_of dtype = some pd := by
    rcases hdt with h | h <;> rw [h] <;> exact ⟨_, rfl⟩
  obtain ⟨pd', hpd'⟩ : ∃ pd', py_dtype_of_template dtype = some pd' := by
    rcases hdt with h | h <;> rw [h] <;> exact ⟨_, rfl⟩
  constructor
  · unfold gdal_to_binary
    rw [hpd]
    simp [if_neg hnc, writeRaster]
  · have hok : binary_to_gdal arr (writeRaster h w dtype (some nd) gt proj arr) maskDs
        = .ok { RasterXSize := w, RasterYSize := h, DataType := dtype,
                NoDataValue := some nd, GeoTransform := gt, Projection := proj,
                band1 := List.zipWith (fun v m => if m = 0 then nd else v)
                  arr maskDs.band1 } := by
      unfold binary_to_gdal
      simp only [writeRaster, hpd']
      rw [if_pos harr, if_pos hmask]
    refine ⟨_, hok, ?_⟩
    exact zipWith_mask_id nd arr maskDs.band1 (by rw [hmask, harr]) hnz

/-- C2 witness: the byte array `[5, 6, 7, 8]` as a 2×2 raster survives the
round trip under mask `[1, 1, 2, 9]`. -/
theorem C2_round_trip_witness :
    gdal_to_binary (V := Int) id (writeRaster 2 2 .GDT_Byte (some 0) [] "" [5, 6, 7, 8])
        .GDT_Byte = .ok [5, 6, 7, 8] ∧
    ∃ out, binary_to_gdal (V := Int) [5, 6, 7, 8]
        (writeRaster 2 2 .GDT_Byte (some 0) [] "" [5, 6, 7, 8])
        (writeRaster 2 2 .GDT_Byte none [] "" [1, 1, 2, 9]) = .ok out ∧
      out.band1 = [5, 6, 7, 8] :=
  C2_round_trip (V := Int) id 2 2 .GDT_Byte 0 [] "" [5, 6, 7, 8]
    (writeRaster 2 2 .GDT_Byte none [] "" [1, 1, 2, 9])
    (Or.inr rfl) (by decide) (by decide) (by decide)

/-- C3: requesting any pixel type other than 32-bit float, 8-bit byte, or
32-bit complex float makes `gdal_to_binary` raise the unimplemented-format
error, and the run writes no output file. -/
theorem C3_unsupported_dtype {V : Type} (angle : V → V) (ds : Raster V) (dtype : GDType)
    (h1 : dtype ≠ .GDT_Float32) (h2 : dtype ≠ .GDT_Byte) (h3 : dtype ≠ .GDT_CFloat32) :
    gdal_to_binary angle ds dtype = .error () ∧
    ∀ (fs : List (String × List V)) (outpath : String),
      gdal_to_binary_run angle fs ds outpath dtype = .error () := by
  have hpd : py_dtype_of dtype = none := by
    cases dtype
    case GDT_Float32 => exact absurd rfl h1
    case GDT_Byte => exact absurd rfl h2
    case GDT_CFloat32 => exact absurd rfl h3
    all_goals rfl
  constructor
  · unfold gdal_to_binary
    rw [hpd]
  · intro fs outpath
    unfold gdal_to_binary_run gdal_to_binary
    rw [hpd]

/-- C3 witness: requesting 16-bit integer output fails and writes nothing. -/
theorem C3_unsupported_dtype_witness :
    gdal_to_binary (V := Int) id (writeRaster 1 1 .GDT_Int16 none [] "" [3])
        .GDT_Int16 = .error () ∧
    gdal_to_binary_run (V := Int) id [] (writeRaster 1 1 .GDT_Int16 none [] "" [3])
        "out.bin" .GDT_Int16 = .error () := by
  obtain ⟨ha, hb⟩ := C3_unsupported_dtype (V := Int) id
    (writeRaster 1 1 .GDT_Int16 none [] "" [3]) .GDT_Int16
    (by decide) (by decide) (by decide)
  exact ⟨ha, hb [] "out.bin"⟩

/-- C9: a template raster with no nodata value on its first band makes
`binary_to_gdal` fail (here with a mask containing a zero, as the claim
states; the fill-value conversion rejects `None` on every path). -/
theorem C9_no_nodata_fails {V : Type} [DecidableEq V] [Zero V]
    (bin : List V) (template maskDs : Raster V)
    (hnd : template.NoDataValue = none)
    (hzero : ∃ i : Nat, maskDs.band1[i]? = some 0) :
    binary_to_gdal bin template maskDs = .error () := by
  unfold binary_to_gdal
  rw [hnd]
  cases hpd : py_dtype_of_template template.DataType with
  | none => rfl
  | some pd => simp

/-- C9 witness: no nodata on the template, mask `[0]`. -/
theorem C9_no_nodata_fails_witness :
    binary_to_gdal (V := Int) [4]
      (writeRaster 1 1 .GDT_Float32 none [] "" [4])
      (writeRaster 1 1 .GDT_Byte none [] "" [0]) = .error () :=
  C9_no_nodata_fails (V := Int) [4]
    (writeRaster 1 1 .GDT_Float32 none [] "" [4])
    (writeRaster 1 1 .GDT_Byte none [] "" [0])
    rfl ⟨0, by decide⟩

/-- C8: on a 32-bit complex float input, `gdal_to_binary` replaces every
element by its phase angle; the angle lies in the half-open interval
(−π, π] and is invariant under scaling the complex value by any positive
real. -/
theorem C8_phase_conversion (ds : Raster ℂ) :
    gdal_to_binary np_angle_c ds .GDT_CFloat32 = .ok (ds.band1.map np_angle_c) ∧
    ∀ z ∈ ds.band1, np_angle z ∈ Set.Ioc (-Real.pi) Real.pi ∧
      ∀ r : ℝ, 0 < r → np_angle ((r : ℂ) * z) = np_angle z := by
  constructor
  · unfold gdal_to_binary py_dtype_of
    simp
  · intro z _
    refine ⟨Complex.arg_mem_Ioc z, fun r hr => Complex.arg_real_mul z hr⟩

/-- C8 witness: the band `[i]`, with scaling factor 2. -/
theorem C8_phase_conversion_witness :
    gdal_to_binary np_angle_c
        (writeRaster 1 1 .GDT_CFloat32 none [] "" [Complex.I]) .GDT_CFloat32
      = .ok [np_angle_c Complex.I] ∧
    np_angle Complex.I ∈ Set.Ioc (-Real.pi) Real.pi ∧
    np_angle ((2 : ℝ) * Complex.I) = np_angle Complex.I := by
  obtain ⟨hok, hall⟩ := C8_phase_conversion
    (writeRaster 1 1 .GDT_CFloat32 none [] "" [Complex.I])
  obtain ⟨h1, h2⟩ := hall Complex.I (by simp [writeRaster])
  exact ⟨hok, h1, h2 2 (by norm_num)⟩

/-! ### Character data of a string, kept as an unexpanded atom -/

/-- The character list of a string.  A plain definition (not the structure
projection), so that rewriting keeps string literals as atoms instead of
expanding them into character lists. -/
def strData (s : String) : List Char := s.data

theorem strData_append (a b : String) : strData (a ++ b) = strData a ++ strData b :=
  String.data_append a b

theorem strData_empty : strData "" = [] := rfl

theorem configDirectives_eq (s : String) :
    configDirectives s = (splitLn (strData s)).filterMap directiveOfLine := rfl

theorem splitLn_nil : splitLn [] = [[]] := rfl

theorem cleanStr_noNl {s : String} (h : cleanStr s) : ∀ c ∈ strData s, c ≠ '\n' :=
  fun c hc => (h c hc).2

theorem cleanStr_noWsp {s : String} (h : cleanStr s) : ∀ c ∈ strData s, isWsp c = false :=
  fun c hc => (h c hc).1

theorem natRepr_noNl (n : Nat) : ∀ c ∈ strData (Nat.repr n), c ≠ '\n' :=
  cleanStr_noNl (natRepr_clean n)

theorem natRepr_noWsp (n : Nat) : ∀ c ∈ strData (Nat.repr n), isWsp c = false :=
  cleanStr_noWsp (natRepr_clean n)

theorem intRepr_noNl (i : Int) : ∀ c ∈ strData (Int.repr i), c ≠ '\n' :=
  cleanStr_noNl (intRepr_clean i)

theorem intRepr_noWsp (i : Int) : ∀ c ∈ strData (Int.repr i), isWsp c = false :=
  cleanStr_noWsp (intRepr_clean i)

/-! ### Decompositions of the template literals at newlines (generated) -/

set_option maxRecDepth 10000 in
theorem litdec_1 :
    strData "\n    ######################\n    # Base Configuration #\n    ######################\n\n    # Input file name\n    INFILE  "
      = '\n' :: (strData "    ######################" ++ ('\n' :: (strData "    # Base Configuration #" ++ ('\n' :: (strData "    ######################" ++ ('\n' :: ('\n' :: (strData "    # Input file name" ++ ('\n' :: (strData "    INFILE  ")))))))))) := by decide

set_option maxRecDepth 10000 in
theorem litdec_2 :
    strData "\n    INFILEFORMAT    "
      = '\n' :: (strData "    INFILEFORMAT    ") := by decide

set_option maxRecDepth 10000 in
theorem litdec_3 :
    strData "\n\n    # Input file line length\n    LINELENGTH  "
      = '\n' :: ('\n' :: (strData "    # Input file line length" ++ ('\n' :: (strData "    LINELENGTH  ")))) := by decide

set_option maxRecDepth 10000 in
theorem litdec_4 :
    strData "\n    NLOOKSRANGE "
      = '\n' :: (strData "    NLOOKSRANGE ") := by decide

set_option maxRecDepth 10000 in
theorem litdec_5 :
    strData "\n    NLOOKSAZ    "
      = '\n' :: (strData "    NLOOKSAZ    ") := by decide

set_option maxRecDepth 10000 in
theorem litdec_6 :
    strData "\n\n    # Output file\n    OUTFILE "
      = '\n' :: ('\n' :: (strData "    # Output file" ++ ('\n' :: (strData "    OUTFILE ")))) := by decide

set_option maxRecDepth 10000 in
theorem litdec_7 :
    strData "\n    OUTFILEFORMAT   "
      = '\n' :: (strData "    OUTFILEFORMAT   ") := by decide

set_option maxRecDepth 10000 in
theorem litdec_8 :
    strData "\n\n    # Correlation file\n    CORRFILE    "
      = '\n' :: ('\n' :: (strData "    # Correlation file" ++ ('\n' :: (strData "    CORRFILE    ")))) := by decide

set_option maxRecDepth 10000 in
theorem litdec_9 :
    strData "\n    CORRFILEFORMAT  FLOAT_DATA\n\n    # Unwrapping Controls\n    STATCOSTMODE    DEFO\n    DEFOMAX_CYCLE   4.0\n    INITMETHOD  MCF\n    MAXNCOMPS   32\n\n    "
      = '\n' :: (strData "    CORRFILEFORMAT  FLOAT_DATA" ++ ('\n' :: ('\n' :: (strData "    # Unwrapping Controls" ++ ('\n' :: (strData "    STATCOSTMODE    DEFO" ++ ('\n' :: (strData "    DEFOMAX_CYCLE   4.0" ++ ('\n' :: (strData "    INITMETHOD  MCF" ++ ('\n' :: (strData "    MAXNCOMPS   32" ++ ('\n' :: ('\n' :: (strData "    "))))))))))))))) := by decide

set_option maxRecDepth 10000 in
theorem litdec_10 :
    strData "\n    ################\n    # Tile control #\n    ################\n\n    # Parameters in this section describe how the input files will be\n    # tiled.  This is mainly used for tiling, in which different\n    # patches of the interferogram are unwrapped separately.\n\n    # Number of rows and columns of tiles into which the data files are\n    # to be broken up.\n    NTILEROW    "
      = '\n' :: (strData "    ################" ++ ('\n' :: (strData "    # Tile control #" ++ ('\n' :: (strData "    ################" ++ ('\n' :: ('\n' :: (strData "    # Parameters in this section describe how the input files will be" ++ ('\n' :: (strData "    # tiled.  This is mainly used for tiling, in which different" ++ ('\n' :: (strData "    # patches of the interferogram are unwrapped separately." ++ ('\n' :: ('\n' :: (strData "    # Number of rows and columns of tiles into which the data files are" ++ ('\n' :: (strData "    # to be broken up." ++ ('\n' :: (strData "    NTILEROW    "))))))))))))))))))) := by decide

set_option maxRecDepth 10000 in
theorem litdec_11 :
    strData "\n    NTILECOL    "
      = '\n' :: (strData "    NTILECOL    ") := by decide

set_option maxRecDepth 10000 in
theorem litdec_12 :
    strData "\n\n    # Overlap, in pixels, between neighboring tiles.\n    # Using the same overlap for rows and cols here, but they can be different in general\n    ROWOVRLP    "
      = '\n' :: ('\n' :: (strData "    # Overlap, in pixels, between neighboring tiles." ++ ('\n' :: (strData "    # Using the same overlap for rows and cols here, but they can be different in general" ++ ('\n' :: (strData "    ROWOVRLP    ")))))) := by decide

set_option maxRecDepth 10000 in
theorem litdec_13 :
    strData "\n    COLOVRLP    "
      = '\n' :: (strData "    COLOVRLP    ") := by decide

set_option maxRecDepth 10000 in
theorem litdec_14 :
    strData "\n\n    # Maximum number of child processes to start for parallel tile\n    # unwrapping.\n    NPROC   "
      = '\n' :: ('\n' :: (strData "    # Maximum number of child processes to start for parallel tile" ++ ('\n' :: (strData "    # unwrapping." ++ ('\n' :: (strData "    NPROC   ")))))) := by decide

set_option maxRecDepth 10000 in
theorem litdec_15 :
    strData "\n\n    "
      = '\n' :: ('\n' :: (strData "    ")) := by decide

set_option maxRecDepth 10000 in
theorem litdec_16 :
    strData "\n    ###########\n    # Masking #\n    ###########\n\n    # Input file of signed binary byte (signed char) values.  Values in\n    # the file should be either 0 or 1, with 0 denoting interferogram\n    # pixels that should be masked out and 1 denoting valid pixels.  The\n    # array should have the same dimensions as the input wrapped phase\n    # array.\n    BYTEMASKFILE    "
      = '\n' :: (strData "    ###########" ++ ('\n' :: (strData "    # Masking #" ++ ('\n' :: (strData "    ###########" ++ ('\n' :: ('\n' :: (strData "    # Input file of signed binary byte (signed char) values.  Values in" ++ ('\n' :: (strData "    # the file should be either 0 or 1, with 0 denoting interferogram" ++ ('\n' :: (strData "    # pixels that should be masked out and 1 denoting valid pixels.  The" ++ ('\n' :: (strData "    # array should have the same dimensions as the input wrapped phase" ++ ('\n' :: (strData "    # array." ++ ('\n' :: (strData "    BYTEMASKFILE    ")))))))))))))))))) := by decide

set_option maxRecDepth 10000 in
theorem litdec_17 :
    strData "\n    UNWRAPPED_IN    TRUE\n    UNWRAPPEDINFILEFORMAT   FLOAT_DATA\n\n    "
      = '\n' :: (strData "    UNWRAPPED_IN    TRUE" ++ ('\n' :: (strData "    UNWRAPPEDINFILEFORMAT   FLOAT_DATA" ++ ('\n' :: ('\n' :: (strData "    ")))))) := by decide

/-! ### Newline-freeness of the template lines (generated) -/

theorem cleanrun_1 : ∀ c ∈ strData "    ######################", c ≠ '\n' := by decide

theorem cleanrun_2 : ∀ c ∈ strData "    # Base Configuration #", c ≠ '\n' := by decide

theorem cleanrun_3 : ∀ c ∈ strData "    # Input file name", c ≠ '\n' := by decide

theorem cleanrun_4 : ∀ c ∈ strData "    INFILE  ", c ≠ '\n' := by decide

theorem cleanrun_5 : ∀ c ∈ strData "    INFILEFORMAT    ", c ≠ '\n' := by decide

theorem cleanrun_6 : ∀ c ∈ strData "FLOAT_DATA", c ≠ '\n' := by decide

theorem cleanrun_7 : ∀ c ∈ strData "    # Input file line length", c ≠ '\n' := by decide

theorem cleanrun_8 : ∀ c ∈ strData "    LINELENGTH  ", c ≠ '\n' := by decide

theorem cleanrun_9 : ∀ c ∈ strData "    NLOOKSRANGE ", c ≠ '\n' := by decide

theorem cleanrun_10 : ∀ c ∈ strData "    NLOOKSAZ    ", c ≠ '\n' := by decide

theorem cleanrun_11 : ∀ c ∈ strData "    # Output file", c ≠ '\n' := by decide

theorem cleanrun_12 : ∀ c ∈ strData "    OUTFILE ", c ≠ '\n' := by decide

theorem cleanrun_13 : ∀ c ∈ strData "    OUTFILEFORMAT   ", c ≠ '\n' := by decide

theorem cleanrun_14 : ∀ c ∈ strData "    # Correlation file", c ≠ '\n' := by decide

theorem cleanrun_15 : ∀ c ∈ strData "    CORRFILE    ", c ≠ '\n' := by decide

theorem cleanrun_16 : ∀ c ∈ strData "    CORRFILEFORMAT  FLOAT_DATA", c ≠ '\n' := by decide

theorem cleanrun_17 : ∀ c ∈ strData "    # Unwrapping Controls", c ≠ '\n' := by decide

theorem cleanrun_18 : ∀ c ∈ strData "    STATCOSTMODE    DEFO", c ≠ '\n' := by decide

theorem cleanrun_19 : ∀ c ∈ strData "    DEFOMAX_CYCLE   4.0", c ≠ '\n' := by decide

theorem cleanrun_20 : ∀ c ∈ strData "    INITMETHOD  MCF", c ≠ '\n' := by decide

theorem cleanrun_21 : ∀ c ∈ strData "    MAXNCOMPS   32", c ≠ '\n' := by decide

theorem cleanrun_22 : ∀ c ∈ strData "    ", c ≠ '\n' := by decide

theorem cleanrun_23 : ∀ c ∈ strData "    ################", c ≠ '\n' := by decide

theorem cleanrun_24 : ∀ c ∈ strData "    # Tile control #", c ≠ '\n' := by decide

theorem cleanrun_25 : ∀ c ∈ strData "    # Parameters in this section describe how the input files will be", c ≠ '\n' := by decide

theorem cleanrun_26 : ∀ c ∈ strData "    # tiled.  This is mainly used for tiling, in which different", c ≠ '\n' := by decide

theorem cleanrun_27 : ∀ c ∈ strData "    # patches of the interferogram are unwrapped separately.", c ≠ '\n' := by decide

theorem cleanrun_28 : ∀ c ∈ strData "    # Number of rows and columns of tiles into which the data files are", c ≠ '\n' := by decide

theorem cleanrun_29 : ∀ c ∈ strData "    # to be broken up.", c ≠ '\n' := by decide

theorem cleanrun_30 : ∀ c ∈ strData "    NTILEROW    ", c ≠ '\n' := by decide

theorem cleanrun_31 : ∀ c ∈ strData "    NTILECOL    ", c ≠ '\n' := by decide

theorem cleanrun_32 : ∀ c ∈ strData "    # Overlap, in pixels, between neighboring tiles.", c ≠ '\n' := by decide

theorem cleanrun_33 : ∀ c ∈ strData "    # Using the same overlap for rows and cols here, but they can be different in general", c ≠ '\n' := by decide

theorem cleanrun_34 : ∀ c ∈ strData "    ROWOVRLP    ", c ≠ '\n' := by decide

theorem cleanrun_35 : ∀ c ∈ strData "    COLOVRLP    ", c ≠ '\n' := by decide

theorem cleanrun_36 : ∀ c ∈ strData "    # Maximum number of child processes to start for parallel tile", c ≠ '\n' := by decide

theorem cleanrun_37 : ∀ c ∈ strData "    # unwrapping.", c ≠ '\n' := by decide

theorem cleanrun_38 : ∀ c ∈ strData "    NPROC   ", c ≠ '\n' := by decide

theorem cleanrun_39 : ∀ c ∈ strData "    ###########", c ≠ '\n' := by decide

theorem cleanrun_40 : ∀ c ∈ strData "    # Masking #", c ≠ '\n' := by decide

theorem cleanrun_41 : ∀ c ∈ strData "    # Input file of signed binary byte (signed char) values.  Values in", c ≠ '\n' := by decide

theorem cleanrun_42 : ∀ c ∈ strData "    # the file should be either 0 or 1, with 0 denoting interferogram", c ≠ '\n' := by decide

theorem cleanrun_43 : ∀ c ∈ strData "    # pixels that should be masked out and 1 denoting valid pixels.  The", c ≠ '\n' := by decide

theorem cleanrun_44 : ∀ c ∈ strData "    # array should have the same dimensions as the input wrapped phase", c ≠ '\n' := by decide

theorem cleanrun_45 : ∀ c ∈ strData "    # array.", c ≠ '\n' := by decide

theorem cleanrun_46 : ∀ c ∈ strData "    BYTEMASKFILE    ", c ≠ '\n' := by decide

theorem cleanrun_47 : ∀ c ∈ strData "    UNWRAPPED_IN    TRUE", c ≠ '\n' := by decide

theorem cleanrun_48 : ∀ c ∈ strData "    UNWRAPPEDINFILEFORMAT   FLOAT_DATA", c ≠ '\n' := by decide

/-! ### Directives of the individual config lines (generated) -/

theorem dirnone_nil : directiveOfLine ([] : List Char) = none := by decide

theorem dirnone_indent : directiveOfLine (strData "    ") = none := by decide

theorem dirnone_1 :
    directiveOfLine (([] : List Char)) = none := by decide

theorem dirnone_2 :
    directiveOfLine (strData "    ######################") = none := by decide

theorem dirnone_3 :
    directiveOfLine (strData "    # Base Configuration #") = none := by decide

theorem dirnone_4 :
    directiveOfLine (strData "    # Input file name") = none := by decide

theorem dirline_INFILE (v : String) (hv : ∀ c ∈ strData v, isWsp c = false) :
    directiveOfLine (strData "    INFILE  " ++ strData v) = some ("INFILE", v) := by
  have h := directiveOfLine_line [' ', ' ', ' ', ' '] 'I' ['N', 'F', 'I', 'L', 'E'] [' ', ' '] (strData v)
    (by decide) (by decide) (by decide) (by decide) (by decide) (by decide) hv
  simpa using h

theorem dirfixed_INFILEFORMAT :
    directiveOfLine (strData "    INFILEFORMAT    " ++ strData "FLOAT_DATA") = some ("INFILEFORMAT", "FLOAT_DATA") := by decide

theorem dirnone_6 :
    directiveOfLine (strData "    # Input file line length") = none := by decide

theorem dirline_LINELENGTH (v : String) (hv : ∀ c ∈ strData v, isWsp c = false) :
    directiveOfLine (strData "    LINELENGTH  " ++ strData v) = some ("LINELENGTH", v) := by
  have h := directiveOfLine_line [' ', ' ', ' ', ' '] 'L' ['I', 'N', 'E', 'L', 'E', 'N', 'G', 'T', 'H'] [' ', ' '] (strData v)
    (by decide) (by decide) (by decide) (by decide) (by decide) (by decide) hv
  simpa using h

theorem dirline_NLOOKSRANGE (v : String) (hv : ∀ c ∈ strData v, isWsp c = false) :
    directiveOfLine (strData "    NLOOKSRANGE " ++ strData v) = some ("NLOOKSRANGE", v) := by
  have h := directiveOfLine_line [' ', ' ', ' ', ' '] 'N' ['L', 'O', 'O', 'K', 'S', 'R', 'A', 'N', 'G', 'E'] [' '] (strData v)
    (by decide) (by decide) (by decide) (by decide) (by decide) (by decide) hv
  simpa using h

theorem dirline_NLOOKSAZ (v : String) (hv : ∀ c ∈ strData v, isWsp c = false) :
    directiveOfLine (strData "    NLOOKSAZ    " ++ strData v) = some ("NLOOKSAZ", v) := by
  have h := directiveOfLine_line [' ', ' ', ' ', ' '] 'N' ['L', 'O', 'O', 'K', 'S', 'A', 'Z'] [' ', ' ', ' ', ' '] (strData v)
    (by decide) (by decide) (by decide) (by decide) (by decide) (by decide) hv
  simpa using h

theorem dirnone_7 :
    directiveOfLine (strData "    # Output file") = none := by decide

theorem dirline_OUTFILE (v : String) (hv : ∀ c ∈ strData v, isWsp c = false) :
    directiveOfLine (strData "    OUTFILE " ++ strData v) = some ("OUTFILE", v) := by
  have h := directiveOfLine_line [' ', ' ', ' ', ' '] 'O' ['U', 'T', 'F', 'I', 'L', 'E'] [' '] (strData v)
    (by decide) (by decide) (by decide) (by decide) (by decide) (by decide) hv
  simpa using h

theorem dirfixed_OUTFILEFORMAT :
    directiveOfLine (strData "    OUTFILEFORMAT   " ++ strData "FLOAT_DATA") = some ("OUTFILEFORMAT", "FLOAT_DATA") := by decide

theorem dirnone_9 :
    directiveOfLine (strData "    # Correlation file") = none := by decide

theorem dirline_CORRFILE (v : String) (hv : ∀ c ∈ strData v, isWsp c = false) :
    directiveOfLine (strData "    CORRFILE    " ++ strData v) = some ("CORRFILE", v) := by
  have h := directiveOfLine_line [' ', ' ', ' ', ' '] 'C' ['O', 'R', 'R', 'F', 'I', 'L', 'E'] [' ', ' ', ' ', ' '] (strData v)
    (by decide) (by decide) (by decide) (by decide) (by decide) (by decide) hv
  simpa using h

theorem dirfixed_CORRFILEFORMAT :
    directiveOfLine (strData "    CORRFILEFORMAT  FLOAT_DATA") = some ("CORRFILEFORMAT", "FLOAT_DATA") := by decide

theorem dirnone_11 :
    directiveOfLine (strData "    # Unwrapping Controls") = none := by decide

theorem dirfixed_STATCOSTMODE :
    directiveOfLine (strData "    STATCOSTMODE    DEFO") = some ("STATCOSTMODE", "DEFO") := by decide

theorem dirfixed_DEFOMAX_CYCLE :
    directiveOfLine (strData "    DEFOMAX_CYCLE   4.0") = some ("DEFOMAX_CYCLE", "4.0") := by decide

theorem dirfixed_INITMETHOD :
    directiveOfLine (strData "    INITMETHOD  MCF") = some ("INITMETHOD", "MCF") := by decide

theorem dirfixed_MAXNCOMPS :
    directiveOfLine (strData "    MAXNCOMPS   32") = some ("MAXNCOMPS", "32") := by decide

theorem dirnone_16 :
    directiveOfLine (strData "    ################") = none := by decide

theorem dirnone_17 :
    directiveOfLine (strData "    # Tile control #") = none := by decide

theorem dirnone_18 :
    directiveOfLine (strData "    # Parameters in this section describe how the input files will be") = none := by decide

theorem dirnone_19 :
    directiveOfLine (strData "    # tiled.  This is mainly used for tiling, in which different") = none := by decide

theorem dirnone_20 :
    directiveOfLine (strData "    # patches of the interferogram are unwrapped separately.") = none := by decide

theorem dirnone_21 :
    directiveOfLine (strData "    # Number of rows and columns of tiles into which the data files are") = none := by decide

theorem dirnone_22 :
    directiveOfLine (strData "    # to be broken up.") = none := by decide

theorem dirline_NTILEROW (v : String) (hv : ∀ c ∈ strData v, isWsp c = false) :
    directiveOfLine (strData "    NTILEROW    " ++ strData v) = some ("NTILEROW", v) := by
  have h := directiveOfLine_line [' ', ' ', ' ', ' '] 'N' ['T', 'I', 'L', 'E', 'R', 'O', 'W'] [' ', ' ', ' ', ' '] (strData v)
    (by decide) (by decide) (by decide) (by decide) (by decide) (by decide) hv
  simpa using h

theorem dirline_NTILECOL (v : String) (hv : ∀ c ∈ strData v, isWsp c = false) :
    directiveOfLine (strData "    NTILECOL    " ++ strData v) = some ("NTILECOL", v) := by
  have h := directiveOfLine_line [' ', ' ', ' ', ' '] 'N' ['T', 'I', 'L', 'E', 'C', 'O', 'L'] [' ', ' ', ' ', ' '] (strData v)
    (by decide) (by decide) (by decide) (by decide) (by decide) (by decide) hv
  simpa using h

theorem dirnone_23 :
    directiveOfLine (strData "    # Overlap, in pixels, between neighboring tiles.") = none := by decide

theorem dirnone_24 :
    directiveOfLine (strData "    # Using the same overlap for rows and cols here, but they can be different in general") = none := by decide

theorem dirline_ROWOVRLP (v : String) (hv : ∀ c ∈ strData v, isWsp c = false) :
    directiveOfLine (strData "    ROWOVRLP    " ++ strData v) = some ("ROWOVRLP", v) := by
  have h := directiveOfLine_line [' ', ' ', ' ', ' '] 'R' ['O', 'W', 'O', 'V', 'R', 'L', 'P'] [' ', ' ', ' ', ' '] (strData v)
    (by decide) (by decide) (by decide) (by decide) (by decide) (by decide) hv
  simpa using h

theorem dirline_COLOVRLP (v : String) (hv : ∀ c ∈ strData v, isWsp c = false) :
    directiveOfLine (strData "    COLOVRLP    " ++ strData v) = some ("COLOVRLP", v) := by
  have h := directiveOfLine_line [' ', ' ', ' ', ' '] 'C' ['O', 'L', 'O', 'V', 'R', 'L', 'P'] [' ', ' ', ' ', ' '] (strData v)
    (by decide) (by decide) (by decide) (by decide) (by decide) (by decide) hv
  simpa using h

theorem dirnone_25 :
    directiveOfLine (strData "    # Maximum number of child processes to start for parallel tile") = none := by decide

theorem dirnone_26 :
    directiveOfLine (strData "    # unwrapping.") = none := by decide

theorem dirline_NPROC (v : String) (hv : ∀ c ∈ strData v, isWsp c = false) :
    directiveOfLine (strData "    NPROC   " ++ strData v) = some ("NPROC", v) := by
  have h := directiveOfLine_line [' ', ' ', ' ', ' '] 'N' ['P', 'R', 'O', 'C'] [' ', ' ', ' '] (strData v)
    (by decide) (by decide) (by decide) (by decide) (by decide) (by decide) hv
  simpa using h

theorem dirnone_27 :
    directiveOfLine (strData "    ###########") = none := by decide

theorem dirnone_28 :
    directiveOfLine (strData "    # Masking #") = none := by decide

theorem dirnone_29 :
    directiveOfLine (strData "    # Input file of signed binary byte (signed char) values.  Values in") = none := by decide

theorem dirnone_30 :
    directiveOfLine (strData "    # the file should be either 0 or 1, with 0 denoting interferogram") = none := by decide

theorem dirnone_31 :
    directiveOfLine (strData "    # pixels that should be masked out and 1 denoting valid pixels.  The") = none := by decide

theorem dirnone_32 :
    directiveOfLine (strData "    # array should have the same dimensions as the input wrapped phase") = none := by decide

theorem dirnone_33 :
    directiveOfLine (strData "    # array.") = none := by decide

theorem dirline_BYTEMASKFILE (v : String) (hv : ∀ c ∈ strData v, isWsp c = false) :
    directiveOfLine (strData "    BYTEMASKFILE    " ++ strData v) = some ("BYTEMASKFILE", v) := by
  have h := directiveOfLine_line [' ', ' ', ' ', ' '] 'B' ['Y', 'T', 'E', 'M', 'A', 'S', 'K', 'F', 'I', 'L', 'E'] [' ', ' ', ' ', ' '] (strData v)
    (by decide) (by decide) (by decide) (by decide) (by decide) (by decide) hv
  simpa using h

theorem dirfixed_UNWRAPPED_IN :
    directiveOfLine (strData "    UNWRAPPED_IN    TRUE") = some ("UNWRAPPED_IN", "TRUE") := by decide

theorem dirfixed_UNWRAPPEDINFILEFORMAT :
    directiveOfLine (strData "    UNWRAPPEDINFILEFORMAT   FLOAT_DATA") = some ("UNWRAPPEDINFILEFORMAT", "FLOAT_DATA") := by decide

/-! ### Line decompositions of the rendered sections (generated) -/

set_option maxRecDepth 10000 in
set_option maxHeartbeats 1000000 in
theorem sectionSplit_base (vIn vW vLR vLA vOut vCor : String) (hvIn : ∀ c ∈ strData vIn, c ≠ '\n')
    (hvW : ∀ c ∈ strData vW, c ≠ '\n')
    (hvLR : ∀ c ∈ strData vLR, c ≠ '\n')
    (hvLA : ∀ c ∈ strData vLA, c ≠ '\n')
    (hvOut : ∀ c ∈ strData vOut, c ≠ '\n')
    (hvCor : ∀ c ∈ strData vCor, c ≠ '\n')
    (r : List Char) :
    splitLn ('\n' :: (strData "    ######################" ++ ('\n' :: (strData "    # Base Configuration #" ++ ('\n' :: (strData "    ######################" ++ ('\n' :: ('\n' :: (strData "    # Input file name" ++ ('\n' :: (strData "    INFILE  " ++ (strData vIn ++ ('\n' :: (strData "    INFILEFORMAT    " ++ (strData "FLOAT_DATA" ++ ('\n' :: ('\n' :: (strData "    # Input file line length" ++ ('\n' :: (strData "    LINELENGTH  " ++ (strData vW ++ ('\n' :: (strData "    NLOOKSRANGE " ++ (strData vLR ++ ('\n' :: (strData "    NLOOKSAZ    " ++ (strData vLA ++ ('\n' :: ('\n' :: (strData "    # Output file" ++ ('\n' :: (strData "    OUTFILE " ++ (strData vOut ++ ('\n' :: (strData "    OUTFILEFORMAT   " ++ (strData "FLOAT_DATA" ++ ('\n' :: ('\n' :: (strData "    # Correlation file" ++ ('\n' :: (strData "    CORRFILE    " ++ (strData vCor ++ ('\n' :: (strData "    CORRFILEFORMAT  FLOAT_DATA" ++ ('\n' :: ('\n' :: (strData "    # Unwrapping Controls" ++ ('\n' :: (strData "    STATCOSTMODE    DEFO" ++ ('\n' :: (strData "    DEFOMAX_CYCLE   4.0" ++ ('\n' :: (strData "    INITMETHOD  MCF" ++ ('\n' :: (strData "    MAXNCOMPS   32" ++ ('\n' :: ('\n' :: (strData "    " ++ (r)))))))))))))))))))))))))))))))))))))))))))))))))))))))))))
    = [([] : List Char),
       strData "    ######################",
       strData "    # Base Configuration #",
       strData "    ######################",
       ([] : List Char),
       strData "    # Input file name",
       strData "    INFILE  " ++ strData vIn,
       strData "    INFILEFORMAT    " ++ strData "FLOAT_DATA",
       ([] : List Char),
       strData "    # Input file line length",
       strData "    LINELENGTH  " ++ strData vW,
       strData "    NLOOKSRANGE " ++ strData vLR,
       strData "    NLOOKSAZ    " ++ strData vLA,
       ([] : List Char),
       strData "    # Output file",
       strData "    OUTFILE " ++ strData vOut,
       strData "    OUTFILEFORMAT   " ++ strData "FLOAT_DATA",
       ([] : List Char),
       strData "    # Correlation file",
       strData "    CORRFILE    " ++ strData vCor,
       strData "    CORRFILEFORMAT  FLOAT_DATA",
       ([] : List Char),
       strData "    # Unwrapping Controls",
       strData "    STATCOSTMODE    DEFO",
       strData "    DEFOMAX_CYCLE   4.0",
       strData "    INITMETHOD  MCF",
       strData "    MAXNCOMPS   32",
       ([] : List Char)]
      ++ ((strData "    " ++ (splitLn r).headD []) :: (splitLn r).tail) := by
  simp [splitLn_newline, splitLn_clean_append _ _ cleanrun_1, splitLn_clean_append _ _ cleanrun_2, splitLn_clean_append _ _ cleanrun_3, splitLn_clean_append _ _ cleanrun_4, splitLn_clean_append _ _ cleanrun_5, splitLn_clean_append _ _ cleanrun_6, splitLn_clean_append _ _ cleanrun_7, splitLn_clean_append _ _ cleanrun_8, splitLn_clean_append _ _ cleanrun_9, splitLn_clean_append _ _ cleanrun_10, splitLn_clean_append _ _ cleanrun_11, splitLn_clean_append _ _ cleanrun_12, splitLn_clean_append _ _ cleanrun_13, splitLn_clean_append _ _ cleanrun_14, splitLn_clean_append _ _ cleanrun_15, splitLn_clean_append _ _ cleanrun_16, splitLn_clean_append _ _ cleanrun_17, splitLn_clean_append _ _ cleanrun_18, splitLn_clean_append _ _ cleanrun_19, splitLn_clean_append _ _ cleanrun_20, splitLn_clean_append _ _ cleanrun_21, splitLn_clean_append _ _ cleanrun_22, splitLn_clean_append _ _ hvIn, splitLn_clean_append _ _ hvW, splitLn_clean_append _ _ hvLR, splitLn_clean_append _ _ hvLA, splitLn_clean_append _ _ hvOut, splitLn_clean_append _ _ hvCor]

set_option maxRecDepth 10000 in
theorem sectionSplitEnd_base (vIn vW vLR vLA vOut vCor : String) (hvIn : ∀ c ∈ strData vIn, c ≠ '\n')
    (hvW : ∀ c ∈ strData vW, c ≠ '\n')
    (hvLR : ∀ c ∈ strData vLR, c ≠ '\n')
    (hvLA : ∀ c ∈ strData vLA, c ≠ '\n')
    (hvOut : ∀ c ∈ strData vOut, c ≠ '\n')
    (hvCor : ∀ c ∈ strData vCor, c ≠ '\n')
    :
    splitLn ('\n' :: (strData "    ######################" ++ ('\n' :: (strData "    # Base Configuration #" ++ ('\n' :: (strData "    ######################" ++ ('\n' :: ('\n' :: (strData "    # Input file name" ++ ('\n' :: (strData "    INFILE  " ++ (strData vIn ++ ('\n' :: (strData "    INFILEFORMAT    " ++ (strData "FLOAT_DATA" ++ ('\n' :: ('\n' :: (strData "    # Input file line length" ++ ('\n' :: (strData "    LINELENGTH  " ++ (strData vW ++ ('\n' :: (strData "    NLOOKSRANGE " ++ (strData vLR ++ ('\n' :: (strData "    NLOOKSAZ    " ++ (strData vLA ++ ('\n' :: ('\n' :: (strData "    # Output file" ++ ('\n' :: (strData "    OUTFILE " ++ (strData vOut ++ ('\n' :: (strData "    OUTFILEFORMAT   " ++ (strData "FLOAT_DATA" ++ ('\n' :: ('\n' :: (strData "    # Correlation file" ++ ('\n' :: (strData "    CORRFILE    " ++ (strData vCor ++ ('\n' :: (strData "    CORRFILEFORMAT  FLOAT_DATA" ++ ('\n' :: ('\n' :: (strData "    # Unwrapping Controls" ++ ('\n' :: (strData "    STATCOSTMODE    DEFO" ++ ('\n' :: (strData "    DEFOMAX_CYCLE   4.0" ++ ('\n' :: (strData "    INITMETHOD  MCF" ++ ('\n' :: (strData "    MAXNCOMPS   32" ++ ('\n' :: ('\n' :: (strData "    "))))))))))))))))))))))))))))))))))))))))))))))))))))))))))
    = [([] : List Char),
       strData "    ######################",
       strData "    # Base Configuration #",
       strData "    ######################",
       ([] : List Char),
       strData "    # Input file name",
       strData "    INFILE  " ++ strData vIn,
       strData "    INFILEFORMAT    " ++ strData "FLOAT_DATA",
       ([] : List Char),
       strData "    # Input file line length",
       strData "    LINELENGTH  " ++ strData vW,
       strData "    NLOOKSRANGE " ++ strData vLR,
       strData "    NLOOKSAZ    " ++ strData vLA,
       ([] : List Char),
       strData "    # Output file",
       strData "    OUTFILE " ++ strData vOut,
       strData "    OUTFILEFORMAT   " ++ strData "FLOAT_DATA",
       ([] : List Char),
       strData "    # Correlation file",
       strData "    CORRFILE    " ++ strData vCor,
       strData "    CORRFILEFORMAT  FLOAT_DATA",
       ([] : List Char),
       strData "    # Unwrapping Controls",
       strData "    STATCOSTMODE    DEFO",
       strData "    DEFOMAX_CYCLE   4.0",
       strData "    INITMETHOD  MCF",
       strData "    MAXNCOMPS   32",
       ([] : List Char)]
      ++ [strData "    "] := by
  have h := sectionSplit_base vIn vW vLR vLA vOut vCor hvIn hvW hvLR hvLA hvOut hvCor []
  simpa using h

set_option maxRecDepth 10000 in
set_option maxHeartbeats 1000000 in
theorem sectionSplit_tile (vR vC vOv vNP : String) (hvR : ∀ c ∈ strData vR, c ≠ '\n')
    (hvC : ∀ c ∈ strData vC, c ≠ '\n')
    (hvOv : ∀ c ∈ strData vOv, c ≠ '\n')
    (hvNP : ∀ c ∈ strData vNP, c ≠ '\n')
    (r : List Char) :
    splitLn ('\n' :: (strData "    ################" ++ ('\n' :: (strData "    # Tile control #" ++ ('\n' :: (strData "    ################" ++ ('\n' :: ('\n' :: (strData "    # Parameters in this section describe how the input files will be" ++ ('\n' :: (strData "    # tiled.  This is mainly used for tiling, in which different" ++ ('\n' :: (strData "    # patches of the interferogram are unwrapped separately." ++ ('\n' :: ('\n' :: (strData "    # Number of rows and columns of tiles into which the data files are" ++ ('\n' :: (strData "    # to be broken up." ++ ('\n' :: (strData "    NTILEROW    " ++ (strData vR ++ ('\n' :: (strData "    NTILECOL    " ++ (strData vC ++ ('\n' :: ('\n' :: (strData "    # Overlap, in pixels, between neighboring tiles." ++ ('\n' :: (strData "    # Using the same overlap for rows and cols here, but they can be different in general" ++ ('\n' :: (strData "    ROWOVRLP    " ++ (strData vOv ++ ('\n' :: (strData "    COLOVRLP    " ++ (strData vOv ++ ('\n' :: ('\n' :: (strData "    # Maximum number of child processes to start for parallel tile" ++ ('\n' :: (strData "    # unwrapping." ++ ('\n' :: (strData "    NPROC   " ++ (strData vNP ++ ('\n' :: ('\n' :: (strData "    " ++ (r)))))))))))))))))))))))))))))))))))))))))))))))
    = [([] : List Char),
       strData "    ################",
       strData "    # Tile control #",
       strData "    ################",
       ([] : List Char),
       strData "    # Parameters in this section describe how the input files will be",
       strData "    # tiled.  This is mainly used for tiling, in which different",
       strData "    # patches of the interferogram are unwrapped separately.",
       ([] : List Char),
       strData "    # Number of rows and columns of tiles into which the data files are",
       strData "    # to be broken up.",
       strData "    NTILEROW    " ++ strData vR,
       strData "    NTILECOL    " ++ strData vC,
       ([] : List Char),
       strData "    # Overlap, in pixels, between neighboring tiles.",
       strData "    # Using the same overlap for rows and cols here, but they can be different in general",
       strData "    ROWOVRLP    " ++ strData vOv,
       strData "    COLOVRLP    " ++ strData vOv,
       ([] : List Char),
       strData "    # Maximum number of child processes to start for parallel tile",
       strData "    # unwrapping.",
       strData "    NPROC   " ++ strData vNP,
       ([] : List Char)]
      ++ ((strData "    " ++ (splitLn r).headD []) :: (splitLn r).tail) := by
  simp [splitLn_newline, splitLn_clean_append _ _ cleanrun_23, splitLn_clean_append _ _ cleanrun_24, splitLn_clean_append _ _ cleanrun_25, splitLn_clean_append _ _ cleanrun_26, splitLn_clean_append _ _ cleanrun_27, splitLn_clean_append _ _ cleanrun_28, splitLn_clean_append _ _ cleanrun_29, splitLn_clean_append _ _ cleanrun_30, splitLn_clean_append _ _ cleanrun_31, splitLn_clean_append _ _ cleanrun_32, splitLn_clean_append _ _ cleanrun_33, splitLn_clean_append _ _ cleanrun_34, splitLn_clean_append _ _ cleanrun_35, splitLn_clean_append _ _ cleanrun_36, splitLn_clean_append _ _ cleanrun_37, splitLn_clean_append _ _ cleanrun_38, splitLn_clean_append _ _ cleanrun_22, splitLn_clean_append _ _ hvR, splitLn_clean_append _ _ hvC, splitLn_clean_append _ _ hvOv, splitLn_clean_append _ _ hvNP]

set_option maxRecDepth 10000 in
theorem sectionSplitEnd_tile (vR vC vOv vNP : String) (hvR : ∀ c ∈ strData vR, c ≠ '\n')
    (hvC : ∀ c ∈ strData vC, c ≠ '\n')
    (hvOv : ∀ c ∈ strData vOv, c ≠ '\n')
    (hvNP : ∀ c ∈ strData vNP, c ≠ '\n')
    :
    splitLn ('\n' :: (strData "    ################" ++ ('\n' :: (strData "    # Tile control #" ++ ('\n' :: (strData "    ################" ++ ('\n' :: ('\n' :: (strData "    # Parameters in this section describe how the input files will be" ++ ('\n' :: (strData "    # tiled.  This is mainly used for tiling, in which different" ++ ('\n' :: (strData "    # patches of the interferogram are unwrapped separately." ++ ('\n' :: ('\n' :: (strData "    # Number of rows and columns of tiles into which the data files are" ++ ('\n' :: (strData "    # to be broken up." ++ ('\n' :: (strData "    NTILEROW    " ++ (strData vR ++ ('\n' :: (strData "    NTILECOL    " ++ (strData vC ++ ('\n' :: ('\n' :: (strData "    # Overlap, in pixels, between neighboring tiles." ++ ('\n' :: (strData "    # Using the same overlap for rows and cols here, but they can be different in general" ++ ('\n' :: (strData "    ROWOVRLP    " ++ (strData vOv ++ ('\n' :: (strData "    COLOVRLP    " ++ (strData vOv ++ ('\n' :: ('\n' :: (strData "    # Maximum number of child processes to start for parallel tile" ++ ('\n' :: (strData "    # unwrapping." ++ ('\n' :: (strData "    NPROC   " ++ (strData vNP ++ ('\n' :: ('\n' :: (strData "    "))))))))))))))))))))))))))))))))))))))))))))))
    = [([] : List Char),
       strData "    ################",
       strData "    # Tile control #",
       strData "    ################",
       ([] : List Char),
       strData "    # Parameters in this section describe how the input files will be",
       strData "    # tiled.  This is mainly used for tiling, in which different",
       strData "    # patches of the interferogram are unwrapped separately.",
       ([] : List Char),
       strData "    # Number of rows and columns of tiles into which the data files are",
       strData "    # to be broken up.",
       strData "    NTILEROW    " ++ strData vR,
       strData "    NTILECOL    " ++ strData vC,
       ([] : List Char),
       strData "    # Overlap, in pixels, between neighboring tiles.",
       strData "    # Using the same overlap for rows and cols here, but they can be different in general",
       strData "    ROWOVRLP    " ++ strData vOv,
       strData "    COLOVRLP    " ++ strData vOv,
       ([] : List Char),
       strData "    # Maximum number of child processes to start for parallel tile",
       strData "    # unwrapping.",
       strData "    NPROC   " ++ strData vNP,
       ([] : List Char)]
      ++ [strData "    "] := by
  have h := sectionSplit_tile vR vC vOv vNP hvR hvC hvOv hvNP []
  simpa using h

set_option maxRecDepth 10000 in
set_option maxHeartbeats 1000000 in
theorem sectionSplit_mask (vM : String) (hvM : ∀ c ∈ strData vM, c ≠ '\n')
    (r : List Char) :
    splitLn ('\n' :: (strData "    ###########" ++ ('\n' :: (strData "    # Masking #" ++ ('\n' :: (strData "    ###########" ++ ('\n' :: ('\n' :: (strData "    # Input file of signed binary byte (signed char) values.  Values in" ++ ('\n' :: (strData "    # the file should be either 0 or 1, with 0 denoting interferogram" ++ ('\n' :: (strData "    # pixels that should be masked out and 1 denoting valid pixels.  The" ++ ('\n' :: (strData "    # array should have the same dimensions as the input wrapped phase" ++ ('\n' :: (strData "    # array." ++ ('\n' :: (strData "    BYTEMASKFILE    " ++ (strData vM ++ ('\n' :: ('\n' :: (strData "    " ++ (r))))))))))))))))))))))))
    = [([] : List Char),
       strData "    ###########",
       strData "    # Masking #",
       strData "    ###########",
       ([] : List Char),
       strData "    # Input file of signed binary byte (signed char) values.  Values in",
       strData "    # the file should be either 0 or 1, with 0 denoting interferogram",
       strData "    # pixels that should be masked out and 1 denoting valid pixels.  The",
       strData "    # array should have the same dimensions as the input wrapped phase",
       strData "    # array.",
       strData "    BYTEMASKFILE    " ++ strData vM,
       ([] : List Char)]
      ++ ((strData "    " ++ (splitLn r).headD []) :: (splitLn r).tail) := by
  simp [splitLn_newline, splitLn_clean_append _ _ cleanrun_39, splitLn_clean_append _ _ cleanrun_40, splitLn_clean_append _ _ cleanrun_41, splitLn_clean_append _ _ cleanrun_42, splitLn_clean_append _ _ cleanrun_43, splitLn_clean_append _ _ cleanrun_44, splitLn_clean_append _ _ cleanrun_45, splitLn_clean_append _ _ cleanrun_46, splitLn_clean_append _ _ cleanrun_22, splitLn_clean_append _ _ hvM]

set_option maxRecDepth 10000 in
theorem sectionSplitEnd_mask (vM : String) (hvM : ∀ c ∈ strData vM, c ≠ '\n')
    :
    splitLn ('\n' :: (strData "    ###########" ++ ('\n' :: (strData "    # Masking #" ++ ('\n' :: (strData "    ###########" ++ ('\n' :: ('\n' :: (strData "    # Input file of signed binary byte (signed char) values.  Values in" ++ ('\n' :: (strData "    # the file should be either 0 or 1, with 0 denoting interferogram" ++ ('\n' :: (strData "    # pixels that should be masked out and 1 denoting valid pixels.  The" ++ ('\n' :: (strData "    # array should have the same dimensions as the input wrapped phase" ++ ('\n' :: (strData "    # array." ++ ('\n' :: (strData "    BYTEMASKFILE    " ++ (strData vM ++ ('\n' :: ('\n' :: (strData "    ")))))))))))))))))))))))
    = [([] : List Char),
       strData "    ###########",
       strData "    # Masking #",
       strData "    ###########",
       ([] : List Char),
       strData "    # Input file of signed binary byte (signed char) values.  Values in",
       strData "    # the file should be either 0 or 1, with 0 denoting interferogram",
       strData "    # pixels that should be masked out and 1 denoting valid pixels.  The",
       strData "    # array should have the same dimensions as the input wrapped phase",
       strData "    # array.",
       strData "    BYTEMASKFILE    " ++ strData vM,
       ([] : List Char)]
      ++ [strData "    "] := by
  have h := sectionSplit_mask vM hvM []
  simpa using h

set_option maxRecDepth 10000 in
set_option maxHeartbeats 1000000 in
theorem sectionSplit_unwrap (r : List Char) :
    splitLn ('\n' :: (strData "    UNWRAPPED_IN    TRUE" ++ ('\n' :: (strData "    UNWRAPPEDINFILEFORMAT   FLOAT_DATA" ++ ('\n' :: ('\n' :: (strData "    " ++ (r))))))))
    = [([] : List Char),
       strData "    UNWRAPPED_IN    TRUE",
       strData "    UNWRAPPEDINFILEFORMAT   FLOAT_DATA",
       ([] : List Char)]
      ++ ((strData "    " ++ (splitLn r).headD []) :: (splitLn r).tail) := by
  simp [splitLn_newline, splitLn_clean_append _ _ cleanrun_47, splitLn_clean_append _ _ cleanrun_48, splitLn_clean_append _ _ cleanrun_22]

set_option maxRecDepth 10000 in
theorem sectionSplitEnd_unwrap :
    splitLn ('\n' :: (strData "    UNWRAPPED_IN    TRUE" ++ ('\n' :: (strData "    UNWRAPPEDINFILEFORMAT   FLOAT_DATA" ++ ('\n' :: ('\n' :: (strData "    ")))))))
    = [([] : List Char),
       strData "    UNWRAPPED_IN    TRUE",
       strData "    UNWRAPPEDINFILEFORMAT   FLOAT_DATA",
       ([] : List Char)]
      ++ [strData "    "] := by
  have h := sectionSplit_unwrap  []
  simpa using h

/-! ### The directive lists of the four sections -/

/-- The 13 directives of the base section, with the variable values
substituted. -/
def baseDirs (in_ifg in_cor : String) (looks_az looks_range : Int) (w : Nat)
    (out_file : String) : List (String × String) :=
  [("INFILE", in_ifg), ("INFILEFORMAT", "FLOAT_DATA"), ("LINELENGTH", Nat.repr w),
   ("NLOOKSRANGE", Int.repr looks_range), ("NLOOKSAZ", Int.repr looks_az),
   ("OUTFILE", out_file), ("OUTFILEFORMAT", "FLOAT_DATA"), ("CORRFILE", in_cor),
   ("CORRFILEFORMAT", "FLOAT_DATA"), ("STATCOSTMODE", "DEFO"), ("DEFOMAX_CYCLE", "4.0"),
   ("INITMETHOD", "MCF"), ("MAXNCOMPS", "32")]

/-- The 5 directives of the tiling section. -/
def tileDirs (ntilerow ntilecol tile_overlap : Int) : List (String × String) :=
  [("NTILEROW", Int.repr ntilerow), ("NTILECOL", Int.repr ntilecol),
   ("ROWOVRLP", Int.repr tile_overlap), ("COLOVRLP", Int.repr tile_overlap),
   ("NPROC", Int.repr (ntilerow * ntilecol))]

/-- The 2 directives of the pre-unwrapped section. -/
def unwDirs : List (String × String) :=
  [("UNWRAPPED_IN", "TRUE"), ("UNWRAPPEDINFILEFORMAT", "FLOAT_DATA")]

/-- The masking directives a given `in_mask` argument contributes. -/
def maskDirsOf : Option String → List (String × String)
  | none => []
  | some m => if m = "" then [] else [("BYTEMASKFILE", m)]

/-! ### The directives of every generated config (one lemma per flag combination) -/

set_option maxRecDepth 10000 in
theorem master_000 (in_ifg in_cor : String) (laz lrg : Int) (shape : Nat × Nat)
    (oc of : String) (ov : Int)
    (hIn : cleanStr in_ifg) (hCor : cleanStr in_cor) (hOut : cleanStr of) :
    ∀ text o1 o2,
      write_snaphu_config in_ifg in_cor laz lrg shape oc of none ov none false
        = some (text, o1, o2) →
      configDirectives text = baseDirs in_ifg in_cor laz lrg shape.2 of := by
  intro text o1 o2 hw
  simp [write_snaphu_config, truthyTile, truthyMask, substItems, base_template,
    List.lookup, -String.reduceAppend] at hw
  obtain ⟨htext, -, -⟩ := hw
  subst htext
  rw [configDirectives_eq]
  simp only [strData_append, litdec_1, litdec_2, litdec_3, litdec_4, litdec_5, litdec_6, litdec_7, litdec_8, litdec_9, litdec_10, litdec_11, litdec_12, litdec_13, litdec_14, litdec_15, litdec_16, litdec_17, List.append_assoc, List.cons_append]
  rw [sectionSplitEnd_base in_ifg (Nat.repr shape.2) (Int.repr lrg) (Int.repr laz) of in_cor
      (cleanStr_noNl hIn) (natRepr_noNl _) (intRepr_noNl _) (intRepr_noNl _)
      (cleanStr_noNl hOut) (cleanStr_noNl hCor)]
  simp [dirline_INFILE in_ifg (cleanStr_noWsp hIn),
    dirline_LINELENGTH (Nat.repr shape.2) (natRepr_noWsp _),
    dirline_NLOOKSRANGE (Int.repr lrg) (intRepr_noWsp _),
    dirline_NLOOKSAZ (Int.repr laz) (intRepr_noWsp _),
    dirline_OUTFILE of (cleanStr_noWsp hOut),
    dirline_CORRFILE in_cor (cleanStr_noWsp hCor),
    dirnone_nil, dirnone_indent,
    dirnone_1, dirnone_2, dirnone_3, dirnone_4, dirnone_6, dirnone_7, dirnone_9, dirnone_11, dirnone_16, dirnone_17, dirnone_18, dirnone_19, dirnone_20, dirnone_21, dirnone_22, dirnone_23, dirnone_24, dirnone_25, dirnone_26, dirnone_27, dirnone_28, dirnone_29, dirnone_30, dirnone_31, dirnone_32, dirnone_33,
    dirfixed_INFILEFORMAT, dirfixed_OUTFILEFORMAT, dirfixed_CORRFILEFORMAT, dirfixed_STATCOSTMODE, dirfixed_DEFOMAX_CYCLE, dirfixed_INITMETHOD, dirfixed_MAXNCOMPS, dirfixed_UNWRAPPED_IN, dirfixed_UNWRAPPEDINFILEFORMAT,
    baseDirs, tileDirs, unwDirs]

set_option maxRecDepth 10000 in
theorem master_001 (in_ifg in_cor : String) (laz lrg : Int) (shape : Nat × Nat)
    (oc of : String) (ov : Int)
    (hIn : cleanStr in_ifg) (hCor : cleanStr in_cor) (hOut : cleanStr of) :
    ∀ text o1 o2,
      write_snaphu_config in_ifg in_cor laz lrg shape oc of none ov none true
        = some (text, o1, o2) →
      configDirectives text = baseDirs in_ifg in_cor laz lrg shape.2 of ++ unwDirs := by
  intro text o1 o2 hw
  simp [write_snaphu_config, truthyTile, truthyMask, substItems, base_template, unwrap_template,
    List.lookup, -String.reduceAppend] at hw
  obtain ⟨htext, -, -⟩ := hw
  subst htext
  rw [configDirectives_eq]
  simp only [strData_append, litdec_1, litdec_2, litdec_3, litdec_4, litdec_5, litdec_6, litdec_7, litdec_8, litdec_9, litdec_10, litdec_11, litdec_12, litdec_13, litdec_14, litdec_15, litdec_16, litdec_17, List.append_assoc, List.cons_append]
  rw [sectionSplit_base in_ifg (Nat.repr shape.2) (Int.repr lrg) (Int.repr laz) of in_cor
      (cleanStr_noNl hIn) (natRepr_noNl _) (intRepr_noNl _) (intRepr_noNl _)
      (cleanStr_noNl hOut) (cleanStr_noNl hCor),
    sectionSplitEnd_unwrap]
  simp [dirline_INFILE in_ifg (cleanStr_noWsp hIn),
    dirline_LINELENGTH (Nat.repr shape.2) (natRepr_noWsp _),
    dirline_NLOOKSRANGE (Int.repr lrg) (intRepr_noWsp _),
    dirline_NLOOKSAZ (Int.repr laz) (intRepr_noWsp _),
    dirline_OUTFILE of (cleanStr_noWsp hOut),
    dirline_CORRFILE in_cor (cleanStr_noWsp hCor),
    dirnone_nil, dirnone_indent,
    dirnone_1, dirnone_2, dirnone_3, dirnone_4, dirnone_6, dirnone_7, dirnone_9, dirnone_11, dirnone_16, dirnone_17, dirnone_18, dirnone_19, dirnone_20, dirnone_21, dirnone_22, dirnone_23, dirnone_24, dirnone_25, dirnone_26, dirnone_27, dirnone_28, dirnone_29, dirnone_30, dirnone_31, dirnone_32, dirnone_33,
    dirfixed_INFILEFORMAT, dirfixed_OUTFILEFORMAT, dirfixed_CORRFILEFORMAT, dirfixed_STATCOSTMODE, dirfixed_DEFOMAX_CYCLE, dirfixed_INITMETHOD, dirfixed_MAXNCOMPS, dirfixed_UNWRAPPED_IN, dirfixed_UNWRAPPEDINFILEFORMAT,
    baseDirs, tileDirs, unwDirs]

set_option maxRecDepth 10000 in
theorem master_010 (in_ifg in_cor : String) (laz lrg : Int) (shape : Nat × Nat)
    (oc of : String) (ov : Int) (m : String)
    (hIn : cleanStr in_ifg) (hCor : cleanStr in_cor) (hOut : cleanStr of)
    (hM : cleanStr m) (hMne : m ≠ "") :
    ∀ text o1 o2,
      write_snaphu_config in_ifg in_cor laz lrg shape oc of none ov (some m) false
        = some (text, o1, o2) →
      configDirectives text = baseDirs in_ifg in_cor laz lrg shape.2 of ++ [("BYTEMASKFILE", m)] := by
  intro text o1 o2 hw
  simp [write_snaphu_config, truthyTile, truthyMask, substItems, base_template, mask_template,
    List.lookup, hMne, -String.reduceAppend] at hw
  obtain ⟨htext, -, -⟩ := hw
  subst htext
  rw [configDirectives_eq]
  simp only [strData_append, litdec_1, litdec_2, litdec_3, litdec_4, litdec_5, litdec_6, litdec_7, litdec_8, litdec_9, litdec_10, litdec_11, litdec_12, litdec_13, litdec_14, litdec_15, litdec_16, litdec_17, List.append_assoc, List.cons_append]
  rw [sectionSplit_base in_ifg (Nat.repr shape.2) (Int.repr lrg) (Int.repr laz) of in_cor
      (cleanStr_noNl hIn) (natRepr_noNl _) (intRepr_noNl _) (intRepr_noNl _)
      (cleanStr_noNl hOut) (cleanStr_noNl hCor),
    sectionSplitEnd_mask m (cleanStr_noNl hM)]
  simp [dirline_INFILE in_ifg (cleanStr_noWsp hIn),
    dirline_LINELENGTH (Nat.repr shape.2) (natRepr_noWsp _),
    dirline_NLOOKSRANGE (Int.repr lrg) (intRepr_noWsp _),
    dirline_NLOOKSAZ (Int.repr laz) (intRepr_noWsp _),
    dirline_OUTFILE of (cleanStr_noWsp hOut),
    dirline_CORRFILE in_cor (cleanStr_noWsp hCor),
    dirline_BYTEMASKFILE m (cleanStr_noWsp hM),
    dirnone_nil, dirnone_indent,
    dirnone_1, dirnone_2, dirnone_3, dirnone_4, dirnone_6, dirnone_7, dirnone_9, dirnone_11, dirnone_16, dirnone_17, dirnone_18, dirnone_19, dirnone_20, dirnone_21, dirnone_22, dirnone_23, dirnone_24, dirnone_25, dirnone_26, dirnone_27, dirnone_28, dirnone_29, dirnone_30, dirnone_31, dirnone_32, dirnone_33,
    dirfixed_INFILEFORMAT, dirfixed_OUTFILEFORMAT, dirfixed_CORRFILEFORMAT, dirfixed_STATCOSTMODE, dirfixed_DEFOMAX_CYCLE, dirfixed_INITMETHOD, dirfixed_MAXNCOMPS, dirfixed_UNWRAPPED_IN, dirfixed_UNWRAPPEDINFILEFORMAT,
    baseDirs, tileDirs, unwDirs]

set_option maxRecDepth 10000 in
theorem master_011 (in_ifg in_cor : String) (laz lrg : Int) (shape : Nat × Nat)
    (oc of : String) (ov : Int) (m : String)
    (hIn : cleanStr in_ifg) (hCor : cleanStr in_cor) (hOut : cleanStr of)
    (hM : cleanStr m) (hMne : m ≠ "") :
    ∀ text o1 o2,
      write_snaphu_config in_ifg in_cor laz lrg shape oc of none ov (some m) true
        = some (text, o1, o2) →
      configDirectives text = baseDirs in_ifg in_cor laz lrg shape.2 of ++ [("BYTEMASKFILE", m)] ++ unwDirs := by
  intro text o1 o2 hw
  simp [write_snaphu_config, truthyTile, truthyMask, substItems, base_template, mask_template, unwrap_template,
    List.lookup, hMne, -String.reduceAppend] at hw
  obtain ⟨htext, -, -⟩ := hw
  subst htext
  rw [configDirectives_eq]
  simp only [strData_append, litdec_1, litdec_2, litdec_3, litdec_4, litdec_5, litdec_6, litdec_7, litdec_8, litdec_9, litdec_10, litdec_11, litdec_12, litdec_13, litdec_14, litdec_15, litdec_16, litdec_17, List.append_assoc, List.cons_append]
  rw [sectionSplit_base in_ifg (Nat.repr shape.2) (Int.repr lrg) (Int.repr laz) of in_cor
      (cleanStr_noNl hIn) (natRepr_noNl _) (intRepr_noNl _) (intRepr_noNl _)
      (cleanStr_noNl hOut) (cleanStr_noNl hCor),
    sectionSplit_mask m (cleanStr_noNl hM),
    sectionSplitEnd_unwrap]
  simp [dirline_INFILE in_ifg (cleanStr_noWsp hIn),
    dirline_LINELENGTH (Nat.repr shape.2) (natRepr_noWsp _),
    dirline_NLOOKSRANGE (Int.repr lrg) (intRepr_noWsp _),
    dirline_NLOOKSAZ (Int.repr laz) (intRepr_noWsp _),
    dirline_OUTFILE of (cleanStr_noWsp hOut),
    dirline_CORRFILE in_cor (cleanStr_noWsp hCor),
    dirline_BYTEMASKFILE m (cleanStr_noWsp hM),
    dirnone_nil, dirnone_indent,
    dirnone_1, dirnone_2, dirnone_3, dirnone_4, dirnone_6, dirnone_7, dirnone_9, dirnone_11, dirnone_16, dirnone_17, dirnone_18, dirnone_19, dirnone_20, dirnone_21, dirnone_22, dirnone_23, dirnone_24, dirnone_25, dirnone_26, dirnone_27, dirnone_28, dirnone_29, dirnone_30, dirnone_31, dirnone_32, dirnone_33,
    dirfixed_INFILEFORMAT, dirfixed_OUTFILEFORMAT, dirfixed_CORRFILEFORMAT, dirfixed_STATCOSTMODE, dirfixed_DEFOMAX_CYCLE, dirfixed_INITMETHOD, dirfixed_MAXNCOMPS, dirfixed_UNWRAPPED_IN, dirfixed_UNWRAPPEDINFILEFORMAT,
    baseDirs, tileDirs, unwDirs]

set_option maxRecDepth 10000 in
theorem master_100 (in_ifg in_cor : String) (laz lrg : Int) (shape : Nat × Nat)
    (oc of : String) (tr tc : Int) (ov : Int)
    (hIn : cleanStr in_ifg) (hCor : cleanStr in_cor) (hOut : cleanStr of) :
    ∀ text o1 o2,
      write_snaphu_config in_ifg in_cor laz lrg shape oc of (some [tr, tc]) ov none false
        = some (text, o1, o2) →
      configDirectives text = baseDirs in_ifg in_cor laz lrg shape.2 of ++ tileDirs tr tc ov := by
  intro text o1 o2 hw
  simp [write_snaphu_config, truthyTile, truthyMask, substItems, base_template, tile_template,
    List.lookup, -String.reduceAppend] at hw
  obtain ⟨htext, -, -⟩ := hw
  subst htext
  rw [configDirectives_eq]
  simp only [strData_append, litdec_1, litdec_2, litdec_3, litdec_4, litdec_5, litdec_6, litdec_7, litdec_8, litdec_9, litdec_10, litdec_11, litdec_12, litdec_13, litdec_14, litdec_15, litdec_16, litdec_17, List.append_assoc, List.cons_append]
  rw [sectionSplit_base in_ifg (Nat.repr shape.2) (Int.repr lrg) (Int.repr laz) of in_cor
      (cleanStr_noNl hIn) (natRepr_noNl _) (intRepr_noNl _) (intRepr_noNl _)
      (cleanStr_noNl hOut) (cleanStr_noNl hCor),
    sectionSplitEnd_tile (Int.repr tr) (Int.repr tc) (Int.repr ov) (Int.repr (tr * tc))
      (intRepr_noNl _) (intRepr_noNl _) (intRepr_noNl _) (intRepr_noNl _)]
  simp [dirline_INFILE in_ifg (cleanStr_noWsp hIn),
    dirline_LINELENGTH (Nat.repr shape.2) (natRepr_noWsp _),
    dirline_NLOOKSRANGE (Int.repr lrg) (intRepr_noWsp _),
    dirline_NLOOKSAZ (Int.repr laz) (intRepr_noWsp _),
    dirline_OUTFILE of (cleanStr_noWsp hOut),
    dirline_CORRFILE in_cor (cleanStr_noWsp hCor),
    dirline_NTILEROW (Int.repr tr) (intRepr_noWsp _),
    dirline_NTILECOL (Int.repr tc) (intRepr_noWsp _),
    dirline_ROWOVRLP (Int.repr ov) (intRepr_noWsp _),
    dirline_COLOVRLP (Int.repr ov) (intRepr_noWsp _),
    dirline_NPROC (Int.repr (tr * tc)) (intRepr_noWsp _),
    dirnone_nil, dirnone_indent,
    dirnone_1, dirnone_2, dirnone_3, dirnone_4, dirnone_6, dirnone_7, dirnone_9, dirnone_11, dirnone_16, dirnone_17, dirnone_18, dirnone_19, dirnone_20, dirnone_21, dirnone_22, dirnone_23, dirnone_24, dirnone_25, dirnone_26, dirnone_27, dirnone_28, dirnone_29, dirnone_30, dirnone_31, dirnone_32, dirnone_33,
    dirfixed_INFILEFORMAT, dirfixed_OUTFILEFORMAT, dirfixed_CORRFILEFORMAT, dirfixed_STATCOSTMODE, dirfixed_DEFOMAX_CYCLE, dirfixed_INITMETHOD, dirfixed_MAXNCOMPS, dirfixed_UNWRAPPED_IN, dirfixed_UNWRAPPEDINFILEFORMAT,
    baseDirs, tileDirs, unwDirs]

set_option maxRecDepth 10000 in
theorem master_101 (in_ifg in_cor : String) (laz lrg : Int) (shape : Nat × Nat)
    (oc of : String) (tr tc : Int) (ov : Int)
    (hIn : cleanStr in_ifg) (hCor : cleanStr in_cor) (hOut : cleanStr of) :
    ∀ text o1 o2,
      write_snaphu_config in_ifg in_cor laz lrg shape oc of (some [tr, tc]) ov none true
        = some (text, o1, o2) →
      configDirectives text = baseDirs in_ifg in_cor laz lrg shape.2 of ++ tileDirs tr tc ov ++ unwDirs := by
  intro text o1 o2 hw
  simp [write_snaphu_config, truthyTile, truthyMask, substItems, base_template, tile_template, unwrap_template,
    List.lookup, -String.reduceAppend] at hw
  obtain ⟨htext, -, -⟩ := hw
  subst htext
  rw [configDirectives_eq]
  simp only [strData_append, litdec_1, litdec_2, litdec_3, litdec_4, litdec_5, litdec_6, litdec_7, litdec_8, litdec_9, litdec_10, litdec_11, litdec_12, litdec_13, litdec_14, litdec_15, litdec_16, litdec_17, List.append_assoc, List.cons_append]
  rw [sectionSplit_base in_ifg (Nat.repr shape.2) (Int.repr lrg) (Int.repr laz) of in_cor
      (cleanStr_noNl hIn) (natRepr_noNl _) (intRepr_noNl _) (intRepr_noNl _)
      (cleanStr_noNl hOut) (cleanStr_noNl hCor),
    sectionSplit_tile (Int.repr tr) (Int.repr tc) (Int.repr ov) (Int.repr (tr * tc))
      (intRepr_noNl _) (intRepr_noNl _) (intRepr_noNl _) (intRepr_noNl _),
    sectionSplitEnd_unwrap]
  simp [dirline_INFILE in_ifg (cleanStr_noWsp hIn),
    dirline_LINELENGTH (Nat.repr shape.2) (natRepr_noWsp _),
    dirline_NLOOKSRANGE (Int.repr lrg) (intRepr_noWsp _),
    dirline_NLOOKSAZ (Int.repr laz) (intRepr_noWsp _),
    dirline_OUTFILE of (cleanStr_noWsp hOut),
    dirline_CORRFILE in_cor (cleanStr_noWsp hCor),
    dirline_NTILEROW (Int.repr tr) (intRepr_noWsp _),
    dirline_NTILECOL (Int.repr tc) (intRepr_noWsp _),
    dirline_ROWOVRLP (Int.repr ov) (intRepr_noWsp _),
    dirline_COLOVRLP (Int.repr ov) (intRepr_noWsp _),
    dirline_NPROC (Int.repr (tr * tc)) (intRepr_noWsp _),
    dirnone_nil, dirnone_indent,
    dirnone_1, dirnone_2, dirnone_3, dirnone_4, dirnone_6, dirnone_7, dirnone_9, dirnone_11, dirnone_16, dirnone_17, dirnone_18, dirnone_19, dirnone_20, dirnone_21, dirnone_22, dirnone_23, dirnone_24, dirnone_25, dirnone_26, dirnone_27, dirnone_28, dirnone_29, dirnone_30, dirnone_31, dirnone_32, dirnone_33,
    dirfixed_INFILEFORMAT, dirfixed_OUTFILEFORMAT, dirfixed_CORRFILEFORMAT, dirfixed_STATCOSTMODE, dirfixed_DEFOMAX_CYCLE, dirfixed_INITMETHOD, dirfixed_MAXNCOMPS, dirfixed_UNWRAPPED_IN, dirfixed_UNWRAPPEDINFILEFORMAT,
    baseDirs, tileDirs, unwDirs]

set_option maxRecDepth 10000 in
theorem master_110 (in_ifg in_cor : String) (laz lrg : Int) (shape : Nat × Nat)
    (oc of : String) (tr tc : Int) (ov : Int) (m : String)
    (hIn : cleanStr in_ifg) (hCor : cleanStr in_cor) (hOut : cleanStr of)
    (hM : cleanStr m) (hMne : m ≠ "") :
    ∀ text o1 o2,
      write_snaphu_config in_ifg in_cor laz lrg shape oc of (some [tr, tc]) ov (some m) false
        = some (text, o1, o2) →
      configDirectives text = baseDirs in_ifg in_cor laz lrg shape.2 of ++ tileDirs tr tc ov ++ [("BYTEMASKFILE", m)] := by
  intro text o1 o2 hw
  simp [write_snaphu_config, truthyTile, truthyMask, substItems, base_template, tile_template, mask_template,
    List.lookup, hMne, -String.reduceAppend] at hw
  obtain ⟨htext, -, -⟩ := hw
  subst htext
  rw [configDirectives_eq]
  simp only [strData_append, litdec_1, litdec_2, litdec_3, litdec_4, litdec_5, litdec_6, litdec_7, litdec_8, litdec_9, litdec_10, litdec_11, litdec_12, litdec_13, litdec_14, litdec_15, litdec_16, litdec_17, List.append_assoc, List.cons_append]
  rw [sectionSplit_base in_ifg (Nat.repr shape.2) (Int.repr lrg) (Int.repr laz) of in_cor
      (cleanStr_noNl hIn) (natRepr_noNl _) (intRepr_noNl _) (intRepr_noNl _)
      (cleanStr_noNl hOut) (cleanStr_noNl hCor),
    sectionSplit_tile (Int.repr tr) (Int.repr tc) (Int.repr ov) (Int.repr (tr * tc))
      (intRepr_noNl _) (intRepr_noNl _) (intRepr_noNl _) (intRepr_noNl _),
    sectionSplitEnd_mask m (cleanStr_noNl hM)]
  simp [dirline_INFILE in_ifg (cleanStr_noWsp hIn),
    dirline_LINELENGTH (Nat.repr shape.2) (natRepr_noWsp _),
    dirline_NLOOKSRANGE (Int.repr lrg) (intRepr_noWsp _),
    dirline_NLOOKSAZ (Int.repr laz) (intRepr_noWsp _),
    dirline_OUTFILE of (cleanStr_noWsp hOut),
    dirline_CORRFILE in_cor (cleanStr_noWsp hCor),
    dirline_NTILEROW (Int.repr tr) (intRepr_noWsp _),
    dirline_NTILECOL (Int.repr tc) (intRepr_noWsp _),
    dirline_ROWOVRLP (Int.repr ov) (intRepr_noWsp _),
    dirline_COLOVRLP (Int.repr ov) (intRepr_noWsp _),
    dirline_NPROC (Int.repr (tr * tc)) (intRepr_noWsp _),
    dirline_BYTEMASKFILE m (cleanStr_noWsp hM),
    dirnone_nil, dirnone_indent,
    dirnone_1, dirnone_2, dirnone_3, dirnone_4, dirnone_6, dirnone_7, dirnone_9, dirnone_11, dirnone_16, dirnone_17, dirnone_18, dirnone_19, dirnone_20, dirnone_21, dirnone_22, dirnone_23, dirnone_24, dirnone_25, dirnone_26, dirnone_27, dirnone_28, dirnone_29, dirnone_30, dirnone_31, dirnone_32, dirnone_33,
    dirfixed_INFILEFORMAT, dirfixed_OUTFILEFORMAT, dirfixed_CORRFILEFORMAT, dirfixed_STATCOSTMODE, dirfixed_DEFOMAX_CYCLE, dirfixed_INITMETHOD, dirfixed_MAXNCOMPS, dirfixed_UNWRAPPED_IN, dirfixed_UNWRAPPEDINFILEFORMAT,
    baseDirs, tileDirs, unwDirs]

set_option maxRecDepth 10000 in
theorem master_111 (in_ifg in_cor : String) (laz lrg : Int) (shape : Nat × Nat)
    (oc of : String) (tr tc : Int) (ov : Int) (m : String)
    (hIn : cleanStr in_ifg) (hCor : cleanStr in_cor) (hOut : cleanStr of)
    (hM : cleanStr m) (hMne : m ≠ "") :
    ∀ text o1 o2,
      write_snaphu_config in_ifg in_cor laz lrg shape oc of (some [tr, tc]) ov (some m) true
        = some (text, o1, o2) →
      configDirectives text = baseDirs in_ifg in_cor laz lrg shape.2 of ++ tileDirs tr tc ov ++ [("BYTEMASKFILE", m)] ++ unwDirs := by
  intro text o1 o2 hw
  simp [write_snaphu_config, truthyTile, truthyMask, substItems, base_template, tile_template, mask_template, unwrap_template,
    List.lookup, hMne, -String.reduceAppend] at hw
  obtain ⟨htext, -, -⟩ := hw
  subst htext
  rw [configDirectives_eq]
  simp only [strData_append, litdec_1, litdec_2, litdec_3, litdec_4, litdec_5, litdec_6, litdec_7, litdec_8, litdec_9, litdec_10, litdec_11, litdec_12, litdec_13, litdec_14, litdec_15, litdec_16, litdec_17, List.append_assoc, List.cons_append]
  rw [sectionSplit_base in_ifg (Nat.repr shape.2) (Int.repr lrg) (Int.repr laz) of in_cor
      (cleanStr_noNl hIn) (natRepr_noNl _) (intRepr_noNl _) (intRepr_noNl _)
      (cleanStr_noNl hOut) (cleanStr_noNl hCor),
    sectionSplit_tile (Int.repr tr) (Int.repr tc) (Int.repr ov) (Int.repr (tr * tc))
      (intRepr_noNl _) (intRepr_noNl _) (intRepr_noNl _) (intRepr_noNl _),
    sectionSplit_mask m (cleanStr_noNl hM),
    sectionSplitEnd_unwrap]
  simp [dirline_INFILE in_ifg (cleanStr_noWsp hIn),
    dirline_LINELENGTH (Nat.repr shape.2) (natRepr_noWsp _),
    dirline_NLOOKSRANGE (Int.repr lrg) (intRepr_noWsp _),
    dirline_NLOOKSAZ (Int.repr laz) (intRepr_noWsp _),
    dirline_OUTFILE of (cleanStr_noWsp hOut),
    dirline_CORRFILE in_cor (cleanStr_noWsp hCor),
    dirline_NTILEROW (Int.repr tr) (intRepr_noWsp _),
    dirline_NTILECOL (Int.repr tc) (intRepr_noWsp _),
    dirline_ROWOVRLP (Int.repr ov) (intRepr_noWsp _),
    dirline_COLOVRLP (Int.repr ov) (intRepr_noWsp _),
    dirline_NPROC (Int.repr (tr * tc)) (intRepr_noWsp _),
    dirline_BYTEMASKFILE m (cleanStr_noWsp hM),
    dirnone_nil, dirnone_indent,
    dirnone_1, dirnone_2, dirnone_3, dirnone_4, dirnone_6, dirnone_7, dirnone_9, dirnone_11, dirnone_16, dirnone_17, dirnone_18, dirnone_19, dirnone_20, dirnone_21, dirnone_22, dirnone_23, dirnone_24, dirnone_25, dirnone_26, dirnone_27, dirnone_28, dirnone_29, dirnone_30, dirnone_31, dirnone_32, dirnone_33,
    dirfixed_INFILEFORMAT, dirfixed_OUTFILEFORMAT, dirfixed_CORRFILEFORMAT, dirfixed_STATCOSTMODE, dirfixed_DEFOMAX_CYCLE, dirfixed_INITMETHOD, dirfixed_MAXNCOMPS, dirfixed_UNWRAPPED_IN, dirfixed_UNWRAPPEDINFILEFORMAT,
    baseDirs, tileDirs, unwDirs]

/-- The option mapping in effect when `write_snaphu_config` formats the
concatenated template (the `options` dict after the optional insertions,
source lines 100–123). -/
def final_options (in_ifg in_cor : String) (looks_az looks_range : Int)
    (shape : Nat × Nat) (out_file : String) (tile_shape : Option (List Int))
    (tile_overlap : Int) (in_mask : Option String) : List (String × String) :=
  let options0 : List (String × String) :=
    [("infile", in_ifg), ("informat", "FLOAT_DATA"), ("corfile", in_cor),
     ("looks_az", Int.repr looks_az), ("looks_range", Int.repr looks_range),
     ("width", Nat.repr shape.2), ("outfile", out_file),
     ("outformat", "FLOAT_DATA")]
  let options1 :=
    if truthyTile tile_shape then
      match tile_shape with
      | some [ntilerow, ntilecol] =>
        options0 ++
          [("ntilerow", Int.repr ntilerow), ("ntilecol", Int.repr ntilecol),
           ("overlap", Int.repr tile_overlap),
           ("nproc", Int.repr (ntilerow * ntilecol))]
      | _ => options0
    else options0
  if truthyMask in_mask then options1 ++ [("mask", in_mask.getD "")] else options1

/-! ## Claims C4, C5, C6, C7, C10: the configuration generator -/

/-- C4: the produced config text is the concatenation, in the fixed order
base, tiling, masking, pre-unwrapped, of exactly the sections whose optional
feature was requested (base always; tiling iff a tile grid shape is supplied;
masking iff a mask path is supplied; pre-unwrapped iff the unwrapped flag is
set), with omitted sections contributing nothing. -/
theorem C4_section_concatenation (in_ifg in_cor : String) (looks_az looks_range : Int)
    (shape : Nat × Nat) (out_conf out_file : String)
    (tile_shape : Option (List Int)) (tile_overlap : Int)
    (in_mask : Option String) (unwrapped : Bool)
    (htile : tile_shape = none ∨ tile_shape = some [] ∨ ∃ r c, tile_shape = some [r, c]) :
    ∃ b t m u : String,
      substItems (final_options in_ifg in_cor looks_az looks_range shape out_file
          tile_shape tile_overlap in_mask) base_template = some b ∧
      (truthyTile tile_shape = true →
        substItems (final_options in_ifg in_cor looks_az looks_range shape out_file
          tile_shape tile_overlap in_mask) tile_template = some t) ∧
      (truthyMask in_mask = true →
        substItems (final_options in_ifg in_cor looks_az looks_range shape out_file
          tile_shape tile_overlap in_mask) mask_template = some m) ∧
      (unwrapped = true →
        substItems (final_options in_ifg in_cor looks_az looks_range shape out_file
          tile_shape tile_overlap in_mask) unwrap_template = some u) ∧
      write_snaphu_config in_ifg in_cor looks_az looks_range shape out_conf out_file
          tile_shape tile_overlap in_mask unwrapped
        = some (b ++ ((if truthyTile tile_shape then t else "")
            ++ ((if truthyMask in_mask then m else "")
              ++ (if unwrapped then u else ""))), out_conf, out_file) := by
  refine ⟨(substItems (final_options in_ifg in_cor looks_az looks_range shape out_file
      tile_shape tile_overlap in_mask) base_template).getD "",
    (substItems (final_options in_ifg in_cor looks_az looks_range shape out_file
      tile_shape tile_overlap in_mask) tile_template).getD "",
    (substItems (final_options in_ifg in_cor looks_az looks_range shape out_file
      tile_shape tile_overlap in_mask) mask_template).getD "",
    (substItems (final_options in_ifg in_cor looks_az looks_range shape out_file
      tile_shape tile_overlap in_mask) unwrap_template).getD "",
    ?_, ?_, ?_, ?_, ?_⟩
  · rcases htile with rfl | rfl | ⟨r, c, rfl⟩ <;> rcases in_mask with - | m <;>
      first
      | (by_cases hm : m = "" <;> simp [hm, final_options, truthyTile, truthyMask,
           substItems, base_template, List.lookup])
      | rfl
  · rcases htile with rfl | rfl | ⟨r, c, rfl⟩
    · intro h; simp [truthyTile] at h
    · intro h; simp [truthyTile] at h
    · rintro -
      rcases in_mask with - | m
      · rfl
      · by_cases hm : m = "" <;>
          simp [hm, final_options, truthyTile, truthyMask, substItems, tile_template,
            List.lookup]
  · rcases in_mask with - | m
    · intro h; simp [truthyMask] at h
    · intro h
      have hm : m ≠ "" := by simpa [truthyMask] using h
      rcases htile with rfl | rfl | ⟨r, c, rfl⟩ <;>
        simp [hm, final_options, truthyTile, truthyMask, substItems, mask_template,
          List.lookup]
  · intro h
    cases unwrapped
    · exact nomatch h
    · rfl
  · rcases htile with rfl | rfl | ⟨r, c, rfl⟩ <;> rcases in_mask with - | m <;>
      cases unwrapped <;>
      first
      | (by_cases hm : m = "" <;>
          simp [hm, final_options, truthyTile, truthyMask, substItems, substItems_append,
            write_snaphu_config, base_template, tile_template, mask_template, unwrap_template,
            List.lookup, String.append_assoc])
      | simp [final_options, truthyTile, truthyMask, substItems, substItems_append,
          write_snaphu_config, base_template, tile_template, mask_template, unwrap_template,
          List.lookup, String.append_assoc]

/-- C4 witness: a concrete call with all three optional features on. -/
theorem C4_section_concatenation_witness :
    ∃ b t m u : String,
      substItems (final_options "a.bin" "c.bin" 4 20 (100, 200) "o.bin"
          (some [3, 3]) 600 (some "m.bin")) base_template = some b ∧
      (truthyTile (some [3, 3]) = true →
        substItems (final_options "a.bin" "c.bin" 4 20 (100, 200) "o.bin"
          (some [3, 3]) 600 (some "m.bin")) tile_template = some t) ∧
      (truthyMask (some "m.bin") = true →
        substItems (final_options "a.bin" "c.bin" 4 20 (100, 200) "o.bin"
          (some [3, 3]) 600 (some "m.bin")) mask_template = some m) ∧
      (true = true →
        substItems (final_options "a.bin" "c.bin" 4 20 (100, 200) "o.bin"
          (some [3, 3]) 600 (some "m.bin")) unwrap_template = some u) ∧
      write_snaphu_config "a.bin" "c.bin" 4 20 (100, 200) "s.conf" "o.bin"
          (some [3, 3]) 600 (some "m.bin") true
        = some (b ++ ((if truthyTile (some [3, 3]) then t else "")
            ++ ((if truthyMask (some "m.bin") then m else "")
              ++ (if true then u else ""))), "s.conf", "o.bin") :=
  C4_section_concatenation "a.bin" "c.bin" 4 20 (100, 200) "s.conf" "o.bin"
    (some [3, 3]) 600 (some "m.bin") true (Or.inr (Or.inr ⟨3, 3, rfl⟩))

/-- C5: with no optional features the generated config carries exactly the 13
fixed directive keywords with the variable values substituted from the
arguments; in particular LINELENGTH is the second component of the supplied
shape.  The path arguments are single whitespace-free tokens, as the
directive-per-line format requires. -/
theorem C5_base_config_directives (in_ifg in_cor : String) (looks_az looks_range : Int)
    (shape : Nat × Nat) (out_conf out_file : String) (tile_overlap : Int)
    (hIn : cleanStr in_ifg) (hCor : cleanStr in_cor) (hOut : cleanStr out_file) :
    ∃ text, write_snaphu_config in_ifg in_cor looks_az looks_range shape out_conf out_file
        none tile_overlap none false = some (text, out_conf, out_file) ∧
      configDirectives text
        = [("INFILE", in_ifg), ("INFILEFORMAT", "FLOAT_DATA"),
           ("LINELENGTH", Nat.repr shape.2), ("NLOOKSRANGE", Int.repr looks_range),
           ("NLOOKSAZ", Int.repr looks_az), ("OUTFILE", out_file),
           ("OUTFILEFORMAT", "FLOAT_DATA"), ("CORRFILE", in_cor),
           ("CORRFILEFORMAT", "FLOAT_DATA"), ("STATCOSTMODE", "DEFO"),
           ("DEFOMAX_CYCLE", "4.0"), ("INITMETHOD", "MCF"), ("MAXNCOMPS", "32")] :=
  ⟨_, rfl, master_000 in_ifg in_cor looks_az looks_range shape out_conf out_file
    tile_overlap hIn hCor hOut _ _ _ rfl⟩

/-- C5 witness: a concrete featureless call; LINELENGTH is 200, the column
count of the (100, 200) shape. -/
theorem C5_base_config_directives_witness :
    ∃ text, write_snaphu_config "a.bin" "c.bin" 4 20 (100, 200) "s.conf" "o.bin"
        none 600 none false = some (text, "s.conf", "o.bin") ∧
      configDirectives text
        = [("INFILE", "a.bin"), ("INFILEFORMAT", "FLOAT_DATA"),
           ("LINELENGTH", "200"), ("NLOOKSRANGE", "20"),
           ("NLOOKSAZ", "4"), ("OUTFILE", "o.bin"),
           ("OUTFILEFORMAT", "FLOAT_DATA"), ("CORRFILE", "c.bin"),
           ("CORRFILEFORMAT", "FLOAT_DATA"), ("STATCOSTMODE", "DEFO"),
           ("DEFOMAX_CYCLE", "4.0"), ("INITMETHOD", "MCF"), ("MAXNCOMPS", "32")] := by
  obtain ⟨text, h1, h2⟩ := C5_base_config_directives "a.bin" "c.bin" 4 20 (100, 200)
    "s.conf" "o.bin" 600 (by decide) (by decide) (by decide)
  exact ⟨text, h1, h2.trans (by decide)⟩

/-- C6: supplying a tile grid shape (r, c) adds exactly the five tiling
directives NTILEROW = r, NTILECOL = c, ROWOVRLP = COLOVRLP = the overlap
value, and NPROC = r * c, after the base section and before any masking or
pre-unwrapped directives. -/
theorem C6_tiling_directives (in_ifg in_cor : String) (looks_az looks_range : Int)
    (shape : Nat × Nat) (out_conf out_file : String) (tr tc : Int) (tile_overlap : Int)
    (in_mask : Option String) (unwrapped : Bool)
    (hIn : cleanStr in_ifg) (hCor : cleanStr in_cor) (hOut : cleanStr out_file)
    (hM : ∀ m, in_mask = some m → cleanStr m) :
    ∀ text o1 o2,
      write_snaphu_config in_ifg in_cor looks_az looks_range shape out_conf out_file
          (some [tr, tc]) tile_overlap in_mask unwrapped = some (text, o1, o2) →
      configDirectives text
        = baseDirs in_ifg in_cor looks_az looks_range shape.2 out_file
            ++ [("NTILEROW", Int.repr tr), ("NTILECOL", Int.repr tc),
                ("ROWOVRLP", Int.repr tile_overlap), ("COLOVRLP", Int.repr tile_overlap),
                ("NPROC", Int.repr (tr * tc))]
            ++ maskDirsOf in_mask ++ (if unwrapped then unwDirs else []) := by
  intro text o1 o2 hw
  cases in_mask with
  | none =>
    cases unwrapped with
    | false =>
      have h := master_100 in_ifg in_cor looks_az looks_range shape out_conf out_file
        tr tc tile_overlap hIn hCor hOut text o1 o2 hw
      simpa [maskDirsOf, tileDirs] using h
    | true =>
      have h := master_101 in_ifg in_cor looks_az looks_range shape out_conf out_file
        tr tc tile_overlap hIn hCor hOut text o1 o2 hw
      simpa [maskDirsOf, tileDirs] using h
  | some m =>
    by_cases hm : m = ""
    · subst hm
      rw [show write_snaphu_config in_ifg in_cor looks_az looks_range shape out_conf out_file
            (some [tr, tc]) tile_overlap (some "") unwrapped
          = write_snaphu_config in_ifg in_cor looks_az looks_range shape out_conf out_file
            (some [tr, tc]) tile_overlap none unwrapped from rfl] at hw
      cases unwrapped with
      | false =>
        have h := master_100 in_ifg in_cor looks_az looks_range shape out_conf out_file
          tr tc tile_overlap hIn hCor hOut text o1 o2 hw
        simpa [maskDirsOf, tileDirs] using h
      | true =>
        have h := master_101 in_ifg in_cor looks_az looks_range shape out_conf out_file
          tr tc tile_overlap hIn hCor hOut text o1 o2 hw
        simpa [maskDirsOf, tileDirs] using h
    · cases unwrapped with
      | false =>
        have h := master_110 in_ifg in_cor looks_az looks_range shape out_conf out_file
          tr tc tile_overlap m hIn hCor hOut (hM m rfl) hm text o1 o2 hw
        simpa [maskDirsOf, tileDirs, hm] using h
      | true =>
        have h := master_111 in_ifg in_cor looks_az looks_range shape out_conf out_file
          tr tc tile_overlap m hIn hCor hOut (hM m rfl) hm text o1 o2 hw
        simpa [maskDirsOf, tileDirs, hm] using h

/-- C6 witness: tile shape (3, 3) yields NPROC 9. -/
theorem C6_tiling_directives_witness :
    configDirectives (((write_snaphu_config "a.bin" "c.bin" 4 20 (100, 200) "s.conf" "o.bin"
        (some [3, 3]) 600 none false).getD ("", "", "")).1)
      = [("INFILE", "a.bin"), ("INFILEFORMAT", "FLOAT_DATA"),
         ("LINELENGTH", "200"), ("NLOOKSRANGE", "20"),
         ("NLOOKSAZ", "4"), ("OUTFILE", "o.bin"),
         ("OUTFILEFORMAT", "FLOAT_DATA"), ("CORRFILE", "c.bin"),
         ("CORRFILEFORMAT", "FLOAT_DATA"), ("STATCOSTMODE", "DEFO"),
         ("DEFOMAX_CYCLE", "4.0"), ("INITMETHOD", "MCF"), ("MAXNCOMPS", "32"),
         ("NTILEROW", "3"), ("NTILECOL", "3"), ("ROWOVRLP", "600"),
         ("COLOVRLP", "600"), ("NPROC", "9")] := by
  have h := C6_tiling_directives "a.bin" "c.bin" 4 20 (100, 200) "s.conf" "o.bin" 3 3 600
    none false (by decide) (by decide) (by decide) (fun m hm => nomatch hm)
    (((write_snaphu_config "a.bin" "c.bin" 4 20 (100, 200) "s.conf" "o.bin"
        (some [3, 3]) 600 none false).getD ("", "", "")).1) "s.conf" "o.bin" rfl
  exact h.trans (by decide)

/-- C7: the INFILEFORMAT directive of every generated config carries the
single literal value FLOAT_DATA, whatever the unwrapped flag and the other
options are. -/
theorem C7_infileformat_fixed (in_ifg in_cor : String) (looks_az looks_range : Int)
    (shape : Nat × Nat) (out_conf out_file : String)
    (tile_shape : Option (List Int)) (tile_overlap : Int)
    (in_mask : Option String) (unwrapped : Bool)
    (hIn : cleanStr in_ifg) (hCor : cleanStr in_cor) (hOut : cleanStr out_file)
    (hM : ∀ m, in_mask = some m → cleanStr m)
    (htile : tile_shape = none ∨ tile_shape = some [] ∨ ∃ r c, tile_shape = some [r, c]) :
    ∀ text o1 o2,
      write_snaphu_config in_ifg in_cor looks_az looks_range shape out_conf out_file
          tile_shape tile_overlap in_mask unwrapped = some (text, o1, o2) →
      ("INFILEFORMAT", "FLOAT_DATA") ∈ configDirectives text ∧
        ∀ v, ("INFILEFORMAT", v) ∈ configDirectives text → v = "FLOAT_DATA" := by
  intro text o1 o2 hw
  have key : configDirectives text
      = baseDirs in_ifg in_cor looks_az looks_range shape.2 out_file
          ++ (match tile_shape with
              | some [r, c] => tileDirs r c tile_overlap
              | _ => [])
          ++ maskDirsOf in_mask
          ++ (if unwrapped then unwDirs else []) := by
    rcases htile with rfl | rfl | ⟨r, c, rfl⟩
    case inr.inr =>
      rcases in_mask with - | m
      · cases unwrapped
        · simpa [maskDirsOf] using master_100 in_ifg in_cor looks_az looks_range shape
            out_conf out_file r c tile_overlap hIn hCor hOut text o1 o2 hw
        · simpa [maskDirsOf] using master_101 in_ifg in_cor looks_az looks_range shape
            out_conf out_file r c tile_overlap hIn hCor hOut text o1 o2 hw
      · by_cases hm : m = ""
        · subst hm
          rw [show write_snaphu_config in_ifg in_cor looks_az looks_range shape out_conf
                out_file (some [r, c]) tile_overlap (some "") unwrapped
              = write_snaphu_config in_ifg in_cor looks_az looks_range shape out_conf
                out_file (some [r, c]) tile_overlap none unwrapped from rfl] at hw
          cases unwrapped
          · simpa [maskDirsOf] using master_100 in_ifg in_cor looks_az looks_range shape
              out_conf out_file r c tile_overlap hIn hCor hOut text o1 o2 hw
          · simpa [maskDirsOf] using master_101 in_ifg in_cor looks_az looks_range shape
              out_conf out_file r c tile_overlap hIn hCor hOut text o1 o2 hw
        · cases unwrapped
          · simpa [maskDirsOf, hm] using master_110 in_ifg in_cor looks_az looks_range shape
              out_conf out_file r c tile_overlap m hIn hCor hOut (hM m rfl) hm text o1 o2 hw
          · simpa [maskDirsOf, hm] using master_111 in_ifg in_cor looks_az looks_range shape
              out_conf out_file r c tile_overlap m hIn hCor hOut (hM m rfl) hm text o1 o2 hw
    all_goals {
      first
      | (rcases in_mask with - | m
         · cases unwrapped
           · simpa [maskDirsOf] using master_000 in_ifg in_cor looks_az looks_range shape
               out_conf out_file tile_overlap hIn hCor hOut text o1 o2 hw
           · simpa [maskDirsOf] using master_001 in_ifg in_cor looks_az looks_range shape
               out_conf out_file tile_overlap hIn hCor hOut text o1 o2 hw
         · by_cases hm : m = ""
           · subst hm
             cases unwrapped
             · simpa [maskDirsOf] using master_000 in_ifg in_cor looks_az looks_range shape
                 out_conf out_file tile_overlap hIn hCor hOut text o1 o2 hw
             · simpa [maskDirsOf] using master_001 in_ifg in_cor looks_az looks_range shape
                 out_conf out_file tile_overlap hIn hCor hOut text o1 o2 hw
           · cases unwrapped
             · simpa [maskDirsOf, hm] using master_010 in_ifg in_cor looks_az looks_range shape
                 out_conf out_file tile_overlap m hIn hCor hOut (hM m rfl) hm text o1 o2 hw
             · simpa [maskDirsOf, hm] using master_011 in_ifg in_cor looks_az looks_range shape
                 out_conf out_file tile_overlap m hIn hCor hOut (hM m rfl) hm text o1 o2 hw) }
  constructor
  · rw [key]; simp [baseDirs]
  · intro v hv
    rw [key] at hv
    simp [baseDirs, tileDirs, unwDirs, maskDirsOf] at hv
    rcases hv with hv | hv | hv
    · exact hv
    · rcases htile with rfl | rfl | ⟨r, c, rfl⟩ <;> simp at hv
    · rcases in_mask with - | m
      · simp at hv
      · by_cases hm : m = "" <;> simp [hm] at hv

/-- C7 witness: a concrete call with the unwrapped flag set still carries
INFILEFORMAT FLOAT_DATA. -/
theorem C7_infileformat_fixed_witness :
    ("INFILEFORMAT", "FLOAT_DATA") ∈ configDirectives
      (((write_snaphu_config "a.bin" "c.bin" 4 20 (100, 200) "s.conf" "o.bin"
          none 600 (some "m.bin") true).getD ("", "", "")).1) :=
  (C7_infileformat_fixed "a.bin" "c.bin" 4 20 (100, 200) "s.conf" "o.bin"
    none 600 (some "m.bin") true (by decide) (by decide) (by decide)
    (fun m hm => by cases hm; decide) (Or.inl rfl)
    (((write_snaphu_config "a.bin" "c.bin" 4 20 (100, 200) "s.conf" "o.bin"
        none 600 (some "m.bin") true).getD ("", "", "")).1) "s.conf" "o.bin" rfl).1

/-- C10: each falsy optional argument on its own behaves exactly like the
absent-value sentinel, with the other arguments arbitrary: an empty mask path
is the same call as no mask path (for every tile shape and unwrapped flag),
an empty tile tuple is the same call as no tile shape (for every mask path
and unwrapped flag), and generation still succeeds in those calls (for the
empty-mask-path part, provided the tile shape argument itself is well
formed).  Optional features are gated on Python truthiness. -/
theorem C10_falsy_optional_args (in_ifg in_cor : String) (looks_az looks_range : Int)
    (shape : Nat × Nat) (out_conf out_file : String) (tile_overlap : Int) :
    (∀ (tile_shape : Option (List Int)) (unwrapped : Bool),
      write_snaphu_config in_ifg in_cor looks_az looks_range shape out_conf out_file
          tile_shape tile_overlap (some "") unwrapped
        = write_snaphu_config in_ifg in_cor looks_az looks_range shape out_conf out_file
          tile_shape tile_overlap none unwrapped) ∧
    (∀ (in_mask : Option String) (unwrapped : Bool),
      write_snaphu_config in_ifg in_cor looks_az looks_range shape out_conf out_file
          (some []) tile_overlap in_mask unwrapped
        = write_snaphu_config in_ifg in_cor looks_az looks_range shape out_conf out_file
          none tile_overlap in_mask unwrapped) ∧
    (∀ (tile_shape : Option (List Int)) (unwrapped : Bool),
      (tile_shape = none ∨ tile_shape = some [] ∨ ∃ r c, tile_shape = some [r, c]) →
      (write_snaphu_config in_ifg in_cor looks_az looks_range shape out_conf out_file
          tile_shape tile_overlap (some "") unwrapped).isSome = true) ∧
    (∀ (in_mask : Option String) (unwrapped : Bool),
      (write_snaphu_config in_ifg in_cor looks_az looks_range shape out_conf out_file
          (some []) tile_overlap in_mask unwrapped).isSome = true) := by
  refine ⟨?_, ?_, ?_, ?_⟩
  · intro tile_shape unwrapped
    cases tile_shape with
    | none => rfl
    | some l =>
      cases l with
      | nil => rfl
      | cons r l2 =>
        cases l2 with
        | nil => rfl
        | cons c l3 =>
          cases l3 with
          | nil => rfl
          | cons x l4 => rfl
  · intro in_mask unwrapped
    rfl
  · intro tile_shape unwrapped htile
    rcases htile with rfl | rfl | ⟨r, c, rfl⟩ <;> cases unwrapped <;> rfl
  · intro in_mask unwrapped
    rcases in_mask with - | m
    · cases unwrapped <;> rfl
    · by_cases hm : m = ""
      · subst hm
        cases unwrapped <;> rfl
      · cases unwrapped <;>
          simp [write_snaphu_config, truthyTile, truthyMask, hm, substItems,
            base_template, mask_template, unwrap_template, List.lookup]

/-- C10 witness: the mixed calls — an empty mask path together with the
genuine tile shape (3, 3), and an empty tile tuple together with a real mask
path — each behave like the sentinel call and still generate a config. -/
theorem C10_falsy_optional_args_witness :
    write_snaphu_config "a.bin" "c.bin" 4 20 (100, 200) "s.conf" "o.bin"
        (some [3, 3]) 600 (some "") false
      = write_snaphu_config "a.bin" "c.bin" 4 20 (100, 200) "s.conf" "o.bin"
        (some [3, 3]) 600 none false ∧
    write_snaphu_config "a.bin" "c.bin" 4 20 (100, 200) "s.conf" "o.bin"
        (some []) 600 (some "m.bin") true
      = write_snaphu_config "a.bin" "c.bin" 4 20 (100, 200) "s.conf" "o.bin"
        none 600 (some "m.bin") true ∧
    (write_snaphu_config "a.bin" "c.bin" 4 20 (100, 200) "s.conf" "o.bin"
        (some [3, 3]) 600 (some "") false).isSome = true ∧
    (write_snaphu_config "a.bin" "c.bin" 4 20 (100, 200) "s.conf" "o.bin"
        (some []) 600 (some "m.bin") true).isSome = true := by
  obtain ⟨h1, h2, h3, h4⟩ := C10_falsy_optional_args "a.bin" "c.bin" 4 20 (100, 200)
    "s.conf" "o.bin" 600
  exact ⟨h1 (some [3, 3]) false, h2 (some "m.bin") true,
    h3 (some [3, 3]) false (Or.inr (Or.inr ⟨3, 3, rfl⟩)), h4 (some "m.bin") true⟩

end Snafu
